import Mathlib

/-!
# OS4 window backend (`src/os4_window.c`)

A shallow embedding of the AmigaOS 4 window backend of GLFW.

* C pointers are addresses (`Ptr`, a natural number, `0` is `NULL`).  The
  `_GLFWwindow` and `_GLFWmonitor` objects live in heaps indexed by address, so a
  write through a pointer is a `Function.update` of the heap.
* The chain `_glfw.windowListHead`, `->next`, `->next`, ... is the list of the
  addresses of the windows on it, in chain order.
* The input hooks of the library core (`_glfwInputKey`, `_glfwInputWindowPos`, ...)
  and the calls into Intuition are recorded, in order, in a log.
* `printf` diagnostics are not part of the model.
-/

namespace OS4

/-! ## Constants of the public headers -/

/-- An address; `0` is the null pointer. -/
abbrev Ptr := Nat

/-- The null pointer. -/
def NULL : Ptr := 0

/-- `GLFW_DONT_CARE` of `GLFW/glfw3.h`. -/
def GLFW_DONT_CARE : Int := -1

/-- `GLFW_RELEASE` of `GLFW/glfw3.h`. -/
def GLFW_RELEASE : Nat := 0

/-- `GLFW_PRESS` of `GLFW/glfw3.h`. -/
def GLFW_PRESS : Nat := 1

/-- `GLFW_MOD_SHIFT` of `GLFW/glfw3.h`. -/
def GLFW_MOD_SHIFT : Nat := 0x0001

/-- `GLFW_MOD_CONTROL` of `GLFW/glfw3.h`. -/
def GLFW_MOD_CONTROL : Nat := 0x0002

/-- `GLFW_MOD_ALT` of `GLFW/glfw3.h`. -/
def GLFW_MOD_ALT : Nat := 0x0004

/-- `GLFW_MOD_SUPER` of `GLFW/glfw3.h`. -/
def GLFW_MOD_SUPER : Nat := 0x0008

/-- `GLFW_MOD_CAPS_LOCK` of `GLFW/glfw3.h`. -/
def GLFW_MOD_CAPS_LOCK : Nat := 0x0010

/-- `GLFW_MOUSE_BUTTON_LEFT` of `GLFW/glfw3.h`. -/
def GLFW_MOUSE_BUTTON_LEFT : Nat := 0

/-- `GLFW_MOUSE_BUTTON_RIGHT` of `GLFW/glfw3.h`. -/
def GLFW_MOUSE_BUTTON_RIGHT : Nat := 1

/-- `GLFW_MOUSE_BUTTON_MIDDLE` of `GLFW/glfw3.h`. -/
def GLFW_MOUSE_BUTTON_MIDDLE : Nat := 2

/-- `IEQUALIFIER_LSHIFT` of `devices/inputevent.h`. -/
def IEQUALIFIER_LSHIFT : Nat := 0x0001

/-- `IEQUALIFIER_RSHIFT` of `devices/inputevent.h`. -/
def IEQUALIFIER_RSHIFT : Nat := 0x0002

/-- `IEQUALIFIER_CAPSLOCK` of `devices/inputevent.h`. -/
def IEQUALIFIER_CAPSLOCK : Nat := 0x0004

/-- `IEQUALIFIER_CONTROL` of `devices/inputevent.h`. -/
def IEQUALIFIER_CONTROL : Nat := 0x0008

/-- `IEQUALIFIER_LALT` of `devices/inputevent.h`. -/
def IEQUALIFIER_LALT : Nat := 0x0010

/-- `IEQUALIFIER_RALT` of `devices/inputevent.h`. -/
def IEQUALIFIER_RALT : Nat := 0x0020

/-- `IEQUALIFIER_LCOMMAND` of `devices/inputevent.h`. -/
def IEQUALIFIER_LCOMMAND : Nat := 0x0040

/-- `IEQUALIFIER_RCOMMAND` of `devices/inputevent.h`. -/
def IEQUALIFIER_RCOMMAND : Nat := 0x0080

/-- `IECODE_UP_PREFIX` of `devices/inputevent.h`. -/
def IECODE_UP_PREFIX : Nat := 0x80

/-- `IECODE_LBUTTON` of `devices/inputevent.h`. -/
def IECODE_LBUTTON : Nat := 0x68

/-- `IECODE_RBUTTON` of `devices/inputevent.h`. -/
def IECODE_RBUTTON : Nat := 0x69

/-- `IECODE_MBUTTON` of `devices/inputevent.h`. -/
def IECODE_MBUTTON : Nat := 0x6A

/-- `IDCMP_NEWSIZE` of `intuition/intuition.h`. -/
def IDCMP_NEWSIZE : Nat := 0x00000002

/-- `IDCMP_MOUSEBUTTONS` of `intuition/intuition.h`. -/
def IDCMP_MOUSEBUTTONS : Nat := 0x00000008

/-- `IDCMP_MOUSEMOVE` of `intuition/intuition.h`. -/
def IDCMP_MOUSEMOVE : Nat := 0x00000010

/-- `IDCMP_GADGETUP` of `intuition/intuition.h`. -/
def IDCMP_GADGETUP : Nat := 0x00000040

/-- `IDCMP_CLOSEWINDOW` of `intuition/intuition.h`. -/
def IDCMP_CLOSEWINDOW : Nat := 0x00000200

/-- `IDCMP_RAWKEY` of `intuition/intuition.h`. -/
def IDCMP_RAWKEY : Nat := 0x00000400

/-- `IDCMP_ACTIVEWINDOW` of `intuition/intuition.h`. -/
def IDCMP_ACTIVEWINDOW : Nat := 0x00040000

/-- `IDCMP_INACTIVEWINDOW` of `intuition/intuition.h`. -/
def IDCMP_INACTIVEWINDOW : Nat := 0x00080000

/-- `IDCMP_INTUITICKS` of `intuition/intuition.h`. -/
def IDCMP_INTUITICKS : Nat := 0x00400000

/-- `IDCMP_CHANGEWINDOW` of `intuition/intuition.h`. -/
def IDCMP_CHANGEWINDOW : Nat := 0x02000000

/-- `IDCMP_EXTENDEDMOUSE` of `intuition/intuition.h`. -/
def IDCMP_EXTENDEDMOUSE : Nat := 0x08000000

/-- `GLFW_KEY_SPACE` of `GLFW/glfw3.h`. -/
def GLFW_KEY_SPACE : Int := 32

/-- `GLFW_KEY_LAST` of `GLFW/glfw3.h` (it is `GLFW_KEY_MENU`). -/
def GLFW_KEY_LAST : Int := 348

/-- `GLFW_INVALID_VALUE` of `GLFW/glfw3.h`. -/
def GLFW_INVALID_VALUE : Nat := 0x00010004

/-! ## Data model -/

/-- The `os4` part of a `_GLFWwindow` (`_GLFWwindowOS4`), the cached window state. -/
structure GLFWwindowOS4 where
  handle : Ptr
  xpos : Int
  ypos : Int
  width : Int
  height : Int
  lastCursorPosX : Int
  lastCursorPosY : Int
  visible : Bool
  iconified : Bool
  maximized : Bool
  resizable : Bool
  decorated : Bool
  floating : Bool
  transparent : Bool
  opacity : Rat
  windowType : Int
deriving DecidableEq, Repr

/-- The fields of `_GLFWwindow` this backend reads or writes. -/
structure GLFWwindow where
  monitor : Ptr
  autoIconify : Bool
  /-- whether `context.destroy` is set -/
  contextDestroy : Bool
  minwidth : Int
  minheight : Int
  maxwidth : Int
  maxheight : Int
  numer : Int
  denom : Int
  os4 : GLFWwindowOS4
deriving DecidableEq, Repr

/-- The field of `_GLFWmonitor` this backend reads or writes. -/
structure GLFWmonitor where
  window : Ptr
deriving DecidableEq, Repr

/-- A `GLFWvidmode`, as far as this backend looks at it. -/
structure GLFWvidmode where
  width : Int
  height : Int
deriving DecidableEq, Repr

/-- One recorded effect: a call of an input hook of the library core, or a call
into Intuition. -/
inductive Effect where
  | inputCursorPos (window : Ptr) (xpos ypos : Int)
  | inputKey (window : Ptr) (key : Int) (scancode action mods : Nat)
  | inputChar (window : Ptr) (text0 : Int) (mods : Nat) (plain : Bool)
  | inputMouseClick (window : Ptr) (button action mods : Nat)
  | inputWindowCloseRequest (window : Ptr)
  | inputWindowPos (window : Ptr) (xpos ypos : Int)
  | inputWindowSize (window : Ptr) (width height : Int)
  | inputFramebufferSize (window : Ptr) (width height : Int)
  | inputWindowFocus (window : Ptr) (focused : Bool)
  | inputWindowIconify (window : Ptr) (iconified : Bool)
  | inputWindowMaximize (window : Ptr) (maximized : Bool)
  | inputWindowMonitor (window monitor : Ptr)
  | inputMonitorWindow (monitor window : Ptr)
  | setWindowPosAttrs (handle : Ptr) (left top : Int)
  | setWindowSizeAttrs (handle : Ptr) (width height : Int)
  | inputError (code : Nat)
  | contextDestroy (window : Ptr)
  | closeWindow (handle : Ptr)
  | showWindow (handle : Ptr)
  | hideWindow (handle : Ptr)
  | setWindowOpaqueness (handle : Ptr) (iOpacity : Int)
deriving DecidableEq, Repr

/-- The library state `_glfw`, with the heaps of window and monitor objects. -/
structure GLFWlibrary where
  /-- the `_GLFWwindow` object at each address -/
  windows : Ptr → GLFWwindow
  /-- the `_GLFWmonitor` object at each address -/
  monitors : Ptr → GLFWmonitor
  /-- the chain from `_glfw.windowListHead` through `next` -/
  windowList : List Ptr
  /-- `_glfw.os4.focusedWindow` -/
  focusedWindow : Ptr
  /-- `_glfw.os4.keycodes` -/
  keycodes : Nat → Int
  /-- `_glfw.os4.keynames`: the address of the name at each index -/
  keynames : Int → Ptr
  /-- the effects so far, oldest first -/
  log : List Effect

/-! ## Window registry lookup -/

/-- The `while (glfwWin)` loop of `OS4_FindWindow`, from the window `glfwWin` at the
head of the remaining chain. -/
def OS4_FindWindow.loop (windows : Ptr → GLFWwindow) (syswin : Ptr) : List Ptr → Ptr
  | [] => NULL
  | glfwWin :: next =>
    if (windows glfwWin).os4.handle = syswin then glfwWin
    else OS4_FindWindow.loop windows syswin next

/-- `OS4_FindWindow`. -/
def OS4_FindWindow (g : GLFWlibrary) (syswin : Ptr) : Ptr :=
  OS4_FindWindow.loop g.windows syswin g.windowList

/-! ## Native side -/

/-- The fields of Intuition's `struct Window` the backend reads. -/
structure Window where
  LeftEdge : Int
  TopEdge : Int
  Width : Int
  Height : Int
  MouseX : Int
  MouseY : Int
  BorderLeft : Int
  BorderTop : Int
  BorderRight : Int
  BorderBottom : Int
  WScreen : Ptr
deriving DecidableEq, Repr

/-- The fields of Intuition's `struct Screen` the backend reads. -/
structure Screen where
  MouseX : Int
  MouseY : Int
deriving DecidableEq, Repr

/-- The native objects a message can point to, by address. -/
structure NativeMemory where
  window : Ptr → Window
  screen : Ptr → Screen

/-- Intuition's `struct IntuiMessage`: `Class` is a `ULONG`, `Code` and `Qualifier`
are `UWORD`s. -/
structure IntuiMessage where
  Class : Nat
  Code : Nat
  Qualifier : Nat
  IAddress : Ptr
  MouseX : Int
  MouseY : Int
  IDCMPWindow : Ptr
deriving DecidableEq, Repr

/-- The backend's own record `struct MyIntuiMessage`, the copy of a message. -/
structure MyIntuiMessage where
  Class : Nat
  Code : Nat
  Qualifier : Nat
  Gadget : Ptr
  RelativeMouseX : Int
  RelativeMouseY : Int
  IDCMPWindow : Ptr
  WindowMouseX : Int
  WindowMouseY : Int
  ScreenMouseX : Int
  ScreenMouseY : Int
  Width : Int
  Height : Int
deriving DecidableEq, Repr

/-- One message taken from `_glfw.os4.userPort`.  `imsg` and `memory` are the message
and the native objects as they are from `GetMsg` until `ReplyMsg`; after `ReplyMsg`
the message belongs to Intuition again, and `imsgReplied` and `memoryReplied` are
what the same storage holds when it is read from then on. -/
structure Delivery where
  imsg : IntuiMessage
  memory : NativeMemory
  imsgReplied : IntuiMessage
  memoryReplied : NativeMemory

/-- What the backend gets from outside this file. -/
structure Native where
  /-- `IKeymap->MapRawKey` on a raw-key input event with the given `ie_Code` and
  `ie_Qualifier`: the returned count (as stored in `uint16_t res`) and `buffer[0]`
  (as a `char` value) -/
  mapRawKey : Nat → Nat → Nat × Int
  /-- `_glfwGetVideoModeOS4` (of `os4_monitor.c`): the current video mode of the
  monitor at an address -/
  getVideoMode : Ptr → GLFWvidmode
  /-- `_glfwGetMonitorPosOS4` (of `os4_monitor.c`): the position of the monitor at an
  address -/
  getMonitorPos : Ptr → Int × Int
  /-- the floating-point expression `(int) (width / ((float) numer / (float) denom))`,
  from `width`, `numer` and `denom` -/
  aspectHeight : Int → Int → Int → Int
  /-- `malloc` of a number of bytes: `none` when it fails, else the indeterminate
  content of the new block, by offset -/
  malloc : Nat → Option (Nat → Nat)

/-! ## Key, modifier and button translation -/

/-- `OS4_TranslateState`, on a qualifier word. -/
def OS4_TranslateState (state : Nat) : Nat :=
  let mods := 0
  let mods :=
    if state &&& IEQUALIFIER_LSHIFT ≠ 0 ∨ state &&& IEQUALIFIER_RSHIFT ≠ 0 then
      mods ||| GLFW_MOD_SHIFT else mods
  let mods :=
    if state &&& IEQUALIFIER_CONTROL ≠ 0 then mods ||| GLFW_MOD_CONTROL else mods
  let mods :=
    if state &&& IEQUALIFIER_LALT ≠ 0 ∨ state &&& IEQUALIFIER_RALT ≠ 0 then
      mods ||| GLFW_MOD_ALT else mods
  let mods :=
    if state &&& IEQUALIFIER_LCOMMAND ≠ 0 ∨ state &&& IEQUALIFIER_RCOMMAND ≠ 0 then
      mods ||| GLFW_MOD_SUPER else mods
  let mods :=
    if state &&& IEQUALIFIER_CAPSLOCK ≠ 0 then mods ||| GLFW_MOD_CAPS_LOCK else mods
  mods

/-- The `int` value `~IECODE_UP_PREFIX`, as a 32-bit word. -/
def notUpPrefix : Nat := 0xFFFFFFFF - IECODE_UP_PREFIX

/-- `OS4_GetButtonState`. -/
def OS4_GetButtonState (code : Nat) : Nat :=
  if code &&& IECODE_UP_PREFIX ≠ 0 then GLFW_RELEASE else GLFW_PRESS

/-- `OS4_GetButton`. -/
def OS4_GetButton (code : Nat) : Nat :=
  if code &&& notUpPrefix = IECODE_LBUTTON then GLFW_MOUSE_BUTTON_LEFT
  else if code &&& notUpPrefix = IECODE_RBUTTON then GLFW_MOUSE_BUTTON_RIGHT
  else if code &&& notUpPrefix = IECODE_MBUTTON then GLFW_MOUSE_BUTTON_MIDDLE
  else 0

/-- `OS4_TranslateUnicode`: the `char` it returns, as a number. -/
def OS4_TranslateUnicode (nat : Native) (code qualifier : Nat) : Int :=
  let ie_Code := (code &&& notUpPrefix) % 65536
  let ie_Qualifier := qualifier
  let res := (nat.mapRawKey ie_Code ie_Qualifier).1
  if res ≠ 1 then 0 else (nat.mapRawKey ie_Code ie_Qualifier).2

/-! ## Input hooks of the library core -/

/-- Append one effect to the log. -/
def GLFWlibrary.emit (g : GLFWlibrary) (e : Effect) : GLFWlibrary :=
  { g with log := g.log ++ [e] }

/-- Write the `_GLFWwindow` at an address. -/
def GLFWlibrary.setWindow (g : GLFWlibrary) (window : Ptr) (w : GLFWwindow) : GLFWlibrary :=
  { g with windows := Function.update g.windows window w }

/-- Write the `os4` part of the `_GLFWwindow` at an address. -/
def GLFWlibrary.setOS4 (g : GLFWlibrary) (window : Ptr) (o : GLFWwindowOS4) : GLFWlibrary :=
  g.setWindow window { g.windows window with os4 := o }

/-- Modelled from the spec: the input-injection hook `_glfwInputCursorPos` of the
library core (cursor motion), which is not in this file; the call is recorded. -/
def _glfwInputCursorPos (g : GLFWlibrary) (window : Ptr) (xpos ypos : Int) : GLFWlibrary :=
  g.emit (.inputCursorPos window xpos ypos)

/-- Modelled from the spec: the input-injection hook `_glfwInputKey` of the library
core (key press or release), which is not in this file; the call is recorded. -/
def _glfwInputKey (g : GLFWlibrary) (window : Ptr) (key : Int) (scancode action mods : Nat) :
    GLFWlibrary :=
  g.emit (.inputKey window key scancode action mods)

/-- Modelled from the spec: the input-injection hook `_glfwInputChar` of the library
core (text input), which is not in this file; the call is recorded with `text[0]`. -/
def _glfwInputChar (g : GLFWlibrary) (window : Ptr) (text0 : Int) (mods : Nat) (plain : Bool) :
    GLFWlibrary :=
  g.emit (.inputChar window text0 mods plain)

/-- Modelled from the spec: the input-injection hook `_glfwInputMouseClick` of the
library core (mouse button), which is not in this file; the call is recorded. -/
def _glfwInputMouseClick (g : GLFWlibrary) (window : Ptr) (button action mods : Nat) :
    GLFWlibrary :=
  g.emit (.inputMouseClick window button action mods)

/-- Modelled from the spec: the input-injection hook `_glfwInputWindowCloseRequest` of
the library core (window close request), which is not in this file; the call is
recorded. -/
def _glfwInputWindowCloseRequest (g : GLFWlibrary) (window : Ptr) : GLFWlibrary :=
  g.emit (.inputWindowCloseRequest window)

/-- Modelled from the spec: the input-injection hook `_glfwInputWindowPos` of the
library core (window move notification), which is not in this file; the call is
recorded. -/
def _glfwInputWindowPos (g : GLFWlibrary) (window : Ptr) (xpos ypos : Int) : GLFWlibrary :=
  g.emit (.inputWindowPos window xpos ypos)

/-- Modelled from the spec: the input-injection hook `_glfwInputWindowSize` of the
library core (window resize notification), which is not in this file; the call is
recorded. -/
def _glfwInputWindowSize (g : GLFWlibrary) (window : Ptr) (width height : Int) : GLFWlibrary :=
  g.emit (.inputWindowSize window width height)

/-- Modelled from the spec: the input-injection hook `_glfwInputFramebufferSize` of the
library core (framebuffer resize notification), which is not in this file; the call is
recorded. -/
def _glfwInputFramebufferSize (g : GLFWlibrary) (window : Ptr) (width height : Int) :
    GLFWlibrary :=
  g.emit (.inputFramebufferSize window width height)

/-- Modelled from the spec: the hook `_glfwInputWindowMonitor` of the library core,
which is not in this file; it sets `window->monitor` to the monitor. -/
def _glfwInputWindowMonitor (g : GLFWlibrary) (window monitor : Ptr) : GLFWlibrary :=
  (g.setWindow window { g.windows window with monitor := monitor }).emit
    (.inputWindowMonitor window monitor)

/-- Modelled from the spec: the hook `_glfwInputMonitorWindow` of the library core,
which is not in this file; it sets `monitor->window` to the window. -/
def _glfwInputMonitorWindow (g : GLFWlibrary) (monitor window : Ptr) : GLFWlibrary :=
  { g with monitors := Function.update g.monitors monitor { window := window } }.emit
    (.inputMonitorWindow monitor window)

/-! ## Cached position and size -/

/-- `_glfwGetWindowPosOS4`: the values stored through `xpos` and `ypos`. -/
def _glfwGetWindowPosOS4 (g : GLFWlibrary) (window : Ptr) : Int × Int :=
  ((g.windows window).os4.xpos, (g.windows window).os4.ypos)

/-- `_glfwSetWindowPosOS4`. -/
def _glfwSetWindowPosOS4 (g : GLFWlibrary) (window : Ptr) (xpos ypos : Int) : GLFWlibrary :=
  if (g.windows window).monitor ≠ NULL then g
  else if (g.windows window).os4.xpos ≠ xpos ∨ (g.windows window).os4.ypos ≠ ypos then
    let g := g.setOS4 window { (g.windows window).os4 with xpos := xpos, ypos := ypos }
    let g := _glfwInputWindowPos g window xpos ypos
    let g := g.emit (.setWindowPosAttrs (g.windows window).os4.handle xpos ypos)
    g.setOS4 window
      { (g.windows window).os4 with lastCursorPosX := xpos, lastCursorPosY := ypos }
  else g

/-- `_glfwGetWindowSizeOS4`: the values stored through `width` and `height`. -/
def _glfwGetWindowSizeOS4 (g : GLFWlibrary) (window : Ptr) : Int × Int :=
  ((g.windows window).os4.width, (g.windows window).os4.height)

/-- `_glfwSetWindowSizeOS4`. -/
def _glfwSetWindowSizeOS4 (g : GLFWlibrary) (window : Ptr) (width height : Int) : GLFWlibrary :=
  if (g.windows window).monitor ≠ NULL then g
  else if (g.windows window).os4.width ≠ width ∨ (g.windows window).os4.height ≠ height then
    let g := g.setOS4 window { (g.windows window).os4 with width := width, height := height }
    let g := _glfwInputWindowSize g window width height
    let g := _glfwInputFramebufferSize g window width height
    g.emit (.setWindowSizeAttrs (g.windows window).os4.handle width height)
  else g

/-- `_glfwGetFramebufferSizeOS4`: the values stored through `width` and `height`. -/
def _glfwGetFramebufferSizeOS4 (g : GLFWlibrary) (window : Ptr) : Int × Int :=
  ((g.windows window).os4.width, (g.windows window).os4.height)

/-! ## Size limits -/

/-- `applySizeLimits`: the values left in `*width` and `*height`. -/
def applySizeLimits (nat : Native) (window : GLFWwindow) (width height : Int) : Int × Int :=
  let height :=
    if window.numer ≠ GLFW_DONT_CARE ∧ window.denom ≠ GLFW_DONT_CARE then
      nat.aspectHeight width window.numer window.denom
    else height
  let width :=
    if window.minwidth ≠ GLFW_DONT_CARE ∧ width < window.minwidth then window.minwidth
    else if window.maxwidth ≠ GLFW_DONT_CARE ∧ width > window.maxwidth then window.maxwidth
    else width
  let height :=
    if window.minheight ≠ GLFW_DONT_CARE ∧ height < window.minheight then window.minheight
    else if window.maxheight ≠ GLFW_DONT_CARE ∧ height > window.maxheight then window.maxheight
    else height
  (width, height)

/-- `_glfwSetWindowSizeLimitsOS4`; the limits it applies are the ones stored in the
window, its four limit arguments are not read. -/
def _glfwSetWindowSizeLimitsOS4 (nat : Native) (g : GLFWlibrary) (window : Ptr)
    (_minwidth _minheight _maxwidth _maxheight : Int) : GLFWlibrary :=
  let width := (g.windows window).os4.width
  let height := (g.windows window).os4.height
  let limited := applySizeLimits nat (g.windows window) width height
  _glfwSetWindowSizeOS4 g window limited.1 limited.2

/-- `_glfwSetWindowAspectRatioOS4`; the ratio it applies is the one stored in the
window, its two ratio arguments are not read. -/
def _glfwSetWindowAspectRatioOS4 (nat : Native) (g : GLFWlibrary) (window : Ptr)
    (_n _d : Int) : GLFWlibrary :=
  let width := (g.windows window).os4.width
  let height := (g.windows window).os4.height
  let limited := applySizeLimits nat (g.windows window) width height
  _glfwSetWindowSizeOS4 g window limited.1 limited.2

/-! ## Monitor attach and detach -/

/-- `fitToMonitor`. -/
def fitToMonitor (nat : Native) (g : GLFWlibrary) (window : Ptr) : GLFWlibrary :=
  let mode := nat.getVideoMode (g.windows window).monitor
  let pos := nat.getMonitorPos (g.windows window).monitor
  let g := g.setOS4 window { (g.windows window).os4 with xpos := pos.1, ypos := pos.2 }
  let g := g.setOS4 window { (g.windows window).os4 with width := mode.width }
  g.setOS4 window { (g.windows window).os4 with height := mode.height }

/-- `acquireMonitor`. -/
def acquireMonitor (g : GLFWlibrary) (window : Ptr) : GLFWlibrary :=
  _glfwInputMonitorWindow g (g.windows window).monitor window

/-- `releaseMonitor`. -/
def releaseMonitor (g : GLFWlibrary) (window : Ptr) : GLFWlibrary :=
  if (g.monitors (g.windows window).monitor).window ≠ window then g
  else _glfwInputMonitorWindow g (g.windows window).monitor NULL

/-- `_glfwSetWindowMonitorOS4`; the refresh rate is not read. -/
def _glfwSetWindowMonitorOS4 (nat : Native) (g : GLFWlibrary) (window monitor : Ptr)
    (xpos ypos width height : Int) (_refreshRate : Int) : GLFWlibrary :=
  if (g.windows window).monitor = monitor then
    if monitor = NULL then
      let g := _glfwSetWindowPosOS4 g window xpos ypos
      _glfwSetWindowSizeOS4 g window width height
    else g
  else
    let g := if (g.windows window).monitor ≠ NULL then releaseMonitor g window else g
    let g := _glfwInputWindowMonitor g window monitor
    if (g.windows window).monitor ≠ NULL then
      let g := g.setOS4 window { (g.windows window).os4 with visible := true }
      let g := acquireMonitor g window
      fitToMonitor nat g window
    else
      let g := _glfwSetWindowPosOS4 g window xpos ypos
      _glfwSetWindowSizeOS4 g window width height

/-! ## Native message decoder and event pump -/

/-- `OS4_CopyIdcmpMessage`: the record `*dst` after the call, from the one before. -/
def OS4_CopyIdcmpMessage (memory : NativeMemory) (src : IntuiMessage) (dst : MyIntuiMessage) :
    MyIntuiMessage :=
  let dst : MyIntuiMessage :=
    { dst with
      Class := src.Class
      Code := src.Code
      Qualifier := src.Qualifier
      Gadget := src.IAddress
      RelativeMouseX := src.MouseX
      RelativeMouseY := src.MouseY
      IDCMPWindow := src.IDCMPWindow }
  if src.IDCMPWindow ≠ NULL then
    let w := memory.window src.IDCMPWindow
    { dst with
      WindowMouseX := w.MouseX - w.BorderLeft
      WindowMouseY := w.MouseY - w.BorderTop
      ScreenMouseX := (memory.screen w.WScreen).MouseX
      ScreenMouseY := (memory.screen w.WScreen).MouseY
      Width := w.Width - w.BorderLeft - w.BorderRight
      Height := w.Height - w.BorderTop - w.BorderBottom }
  else dst

/-- The `switch (msg.Class)` of `_glfwPollEventsOS4`, which runs after `ReplyMsg`:
`msg` is the copy, `window` the window found before the reply, and `imsg` and `memory`
are what the message storage and the native objects hold now. -/
def _glfwPollEventsOS4.dispatch (nat : Native) (g : GLFWlibrary) (msg : MyIntuiMessage)
    (window : Ptr) (imsg : IntuiMessage) (memory : NativeMemory) : GLFWlibrary :=
  if msg.Class = IDCMP_MOUSEMOVE then
    _glfwInputCursorPos g window msg.WindowMouseX msg.WindowMouseY
  else if msg.Class = IDCMP_RAWKEY then
    let rawkey := (msg.Code &&& 0x7F) % 256
    let key := g.keycodes rawkey
    let mods := OS4_TranslateState msg.Qualifier
    let plain := decide (mods &&& (GLFW_MOD_CONTROL ||| GLFW_MOD_ALT) = 0)
    if imsg.Code < 0x80 then
      let text0 := OS4_TranslateUnicode nat msg.Code msg.Qualifier
      let g := _glfwInputKey g window key rawkey GLFW_PRESS mods
      if text0 ≠ 0 ∧ text0 < 0x80 then _glfwInputChar g window text0 mods plain else g
    else
      _glfwInputKey g window key rawkey GLFW_RELEASE mods
  else if msg.Class = IDCMP_MOUSEBUTTONS then
    let button := OS4_GetButton imsg.Code
    let state := OS4_GetButtonState imsg.Code
    _glfwInputMouseClick g window button state 0
  else if msg.Class = IDCMP_EXTENDEDMOUSE then g
  else if msg.Class = IDCMP_NEWSIZE then g
  else if msg.Class = IDCMP_CHANGEWINDOW then
    if window ≠ NULL then
      let g := g.setOS4 window
        { (g.windows window).os4 with xpos := (memory.window imsg.IDCMPWindow).LeftEdge }
      g.setOS4 window
        { (g.windows window).os4 with ypos := (memory.window imsg.IDCMPWindow).TopEdge }
    else g
  else if msg.Class = IDCMP_ACTIVEWINDOW then g
  else if msg.Class = IDCMP_INACTIVEWINDOW then g
  else if msg.Class = IDCMP_CLOSEWINDOW then
    if window ≠ NULL then _glfwInputWindowCloseRequest g g.focusedWindow else g
  else if msg.Class = IDCMP_INTUITICKS then g
  else if msg.Class = IDCMP_GADGETUP then g
  else g

/-- One turn of the `while` loop of `_glfwPollEventsOS4` on the message it got: the
library state and the local record `msg` after it. -/
def _glfwPollEventsOS4.iteration (nat : Native) (g : GLFWlibrary) (msg : MyIntuiMessage)
    (d : Delivery) : GLFWlibrary × MyIntuiMessage :=
  let msg := OS4_CopyIdcmpMessage d.memory d.imsg msg
  let window := OS4_FindWindow g d.imsg.IDCMPWindow
  (_glfwPollEventsOS4.dispatch nat g msg window d.imsgReplied d.memoryReplied, msg)

/-- The `while` loop of `_glfwPollEventsOS4` over the messages `GetMsg` returns, in
order, until the port is empty. -/
def _glfwPollEventsOS4.loop (nat : Native) :
    GLFWlibrary → MyIntuiMessage → List Delivery → GLFWlibrary
  | g, _, [] => g
  | g, msg, d :: queue =>
    _glfwPollEventsOS4.loop nat (_glfwPollEventsOS4.iteration nat g msg d).1
      (_glfwPollEventsOS4.iteration nat g msg d).2 queue

/-- `_glfwPollEventsOS4`: `msg` is the content of the local record on entry, `queue` the
messages waiting at `_glfw.os4.userPort`. -/
def _glfwPollEventsOS4 (nat : Native) (g : GLFWlibrary) (msg : MyIntuiMessage)
    (queue : List Delivery) : GLFWlibrary :=
  _glfwPollEventsOS4.loop nat g msg queue

/-! ## Cursor image conversion -/

/-- A `GLFWimage`; `pixels` is the byte buffer. -/
structure GLFWimage where
  width : Int
  height : Int
  pixels : List Nat
deriving DecidableEq, Repr

/-- `memcpy` of `n` bytes from offset `source` of `src` to offset `destination` of
`dst`: the new content of `dst`, or `none` when a byte lies outside a buffer. -/
def memcpy (dst : List Nat) (destination : Int) (src : List Nat) (source : Int) (n : Nat) :
    Option (List Nat) :=
  if 0 ≤ destination ∧ 0 ≤ source ∧ destination.toNat + n ≤ dst.length ∧
      source.toNat + n ≤ src.length then
    some (dst.take destination.toNat ++ (src.drop source.toNat).take n ++
      dst.drop (destination.toNat + n))
  else none

/-- The `for (y = 0; y < surface->height; y++)` loop of `OS4_CopyImageData` with `rows`
turns left; `destination` and `source` are byte offsets into `buffer` and into the
pixels.  `none` when a `memcpy` leaves a buffer. -/
def OS4_CopyImageData.loop (surface : GLFWimage) (bytesPerRow : Nat) :
    Nat → Int → Int → List Nat → Option (List Nat)
  | 0, _, _, buffer => some buffer
  | rows + 1, destination, source, buffer =>
    match memcpy buffer destination surface.pixels source bytesPerRow with
    | none => none
    | some buffer =>
      OS4_CopyImageData.loop surface bytesPerRow rows (destination + 4 * surface.width)
        (source + 4) buffer

/-- `OS4_CopyImageData`, with a 32-bit `size_t`: `some none` is the `NULL` of a failed
`malloc`, `some (some bytes)` the returned buffer, byte by byte, and `none` stands for a
`memcpy` outside a buffer. -/
def OS4_CopyImageData (nat : Native) (surface : GLFWimage) : Option (Option (List Nat)) :=
  let bytesPerRow := ((surface.width % 2 ^ 32).toNat * 4) % 2 ^ 32
  let size := (bytesPerRow * (surface.height % 2 ^ 32).toNat) % 2 ^ 32
  match nat.malloc size with
  | some junk =>
    (OS4_CopyImageData.loop surface bytesPerRow surface.height.toNat 0 0
      ((List.range size).map junk)).map some
  | none => some none

/-- The loop of `OS4_CopyImageData` as the list of its `memcpy` calls, one per turn and
in order: the destination offset, the source offset and the byte count of each. -/
def OS4_CopyImageData.calls (surface : GLFWimage) (bytesPerRow : Nat) :
    Nat → Int → Int → List (Int × Int × Nat)
  | 0, _, _ => []
  | rows + 1, destination, source =>
    (destination, source, bytesPerRow) ::
      OS4_CopyImageData.calls surface bytesPerRow rows (destination + 4 * surface.width)
        (source + 4)

/-! ## Window move notification, opacity, show, hide and focus -/

/-- Modelled from the spec: the input-injection hook `_glfwInputWindowFocus` of the
library core (focus change), which is not in this file; the call is recorded. -/
def _glfwInputWindowFocus (g : GLFWlibrary) (window : Ptr) (focused : Bool) : GLFWlibrary :=
  g.emit (.inputWindowFocus window focused)

/-- Modelled from the spec: the hook `_glfwInputWindowIconify` of the library core,
which is not in this file; the call is recorded. -/
def _glfwInputWindowIconify (g : GLFWlibrary) (window : Ptr) (iconified : Bool) :
    GLFWlibrary :=
  g.emit (.inputWindowIconify window iconified)

/-- Modelled from the spec: the hook `_glfwInputWindowMaximize` of the library core,
which is not in this file; the call is recorded. -/
def _glfwInputWindowMaximize (g : GLFWlibrary) (window : Ptr) (maximized : Bool) :
    GLFWlibrary :=
  g.emit (.inputWindowMaximize window maximized)

/-- Modelled from the spec: the error hook `_glfwInputError` of the library core, which
is not in this file; the error code is recorded. -/
def _glfwInputError (g : GLFWlibrary) (code : Nat) : GLFWlibrary :=
  g.emit (.inputError code)

/-- `_glfwDestroyWindowOS4`. -/
def _glfwDestroyWindowOS4 (g : GLFWlibrary) (window : Ptr) : GLFWlibrary :=
  let g := if (g.windows window).contextDestroy then g.emit (.contextDestroy window) else g
  let g := g.emit (.closeWindow (g.windows window).os4.handle)
  let g := if (g.windows window).monitor ≠ NULL then releaseMonitor g window else g
  if g.focusedWindow = window then { g with focusedWindow := NULL } else g

/-- `_glfwIconifyWindowOS4`. -/
def _glfwIconifyWindowOS4 (g : GLFWlibrary) (window : Ptr) : GLFWlibrary :=
  let g :=
    if g.focusedWindow = window then
      _glfwInputWindowFocus { g with focusedWindow := NULL } window false
    else g
  if ¬ (g.windows window).os4.iconified then
    let g := g.setOS4 window { (g.windows window).os4 with iconified := true }
    let g := _glfwInputWindowIconify g window true
    if (g.windows window).monitor ≠ NULL then releaseMonitor g window else g
  else g

/-- `_glfwRestoreWindowOS4`. -/
def _glfwRestoreWindowOS4 (g : GLFWlibrary) (window : Ptr) : GLFWlibrary :=
  if (g.windows window).os4.iconified then
    let g := g.setOS4 window { (g.windows window).os4 with iconified := false }
    let g := _glfwInputWindowIconify g window false
    if (g.windows window).monitor ≠ NULL then acquireMonitor g window else g
  else if (g.windows window).os4.maximized then
    let g := g.setOS4 window { (g.windows window).os4 with maximized := false }
    _glfwInputWindowMaximize g window false
  else g

/-- `_glfwMaximizeWindowOS4`. -/
def _glfwMaximizeWindowOS4 (g : GLFWlibrary) (window : Ptr) : GLFWlibrary :=
  if ¬ (g.windows window).os4.maximized then
    let g := g.setOS4 window { (g.windows window).os4 with maximized := true }
    _glfwInputWindowMaximize g window true
  else g

/-- The conversion `(int) x` of a floating-point value that is the rational `x` and
lies in the range of `int`: the integer part, towards zero. -/
def castToInt (x : Rat) : Int :=
  Int.tdiv x.num x.den

/-- `_glfwGetWindowOpacityOS4`; a `float` is the rational it stands for. -/
def _glfwGetWindowOpacityOS4 (g : GLFWlibrary) (window : Ptr) : Rat :=
  (g.windows window).os4.opacity

/-- `_glfwSetWindowOpacityOS4`; a `float` is the rational it stands for. -/
def _glfwSetWindowOpacityOS4 (g : GLFWlibrary) (window : Ptr) (opacity : Rat) : GLFWlibrary :=
  let g := g.setOS4 window { (g.windows window).os4 with opacity := opacity }
  let iOpacity := castToInt opacity * 255
  g.emit (.setWindowOpaqueness (g.windows window).os4.handle iOpacity)

/-- `_glfwShowWindowOS4`. -/
def _glfwShowWindowOS4 (g : GLFWlibrary) (window : Ptr) : GLFWlibrary :=
  let g := g.setOS4 window { (g.windows window).os4 with visible := true }
  g.emit (.showWindow (g.windows window).os4.handle)

/-- `_glfwHideWindowOS4`. -/
def _glfwHideWindowOS4 (g : GLFWlibrary) (window : Ptr) : GLFWlibrary :=
  let g :=
    if g.focusedWindow = window then
      _glfwInputWindowFocus { g with focusedWindow := NULL } window false
    else g
  let g := g.setOS4 window { (g.windows window).os4 with visible := false }
  g.emit (.hideWindow (g.windows window).os4.handle)

/-- `_glfwFocusWindowOS4`. -/
def _glfwFocusWindowOS4 (g : GLFWlibrary) (window : Ptr) : GLFWlibrary :=
  if g.focusedWindow = window then g
  else if ¬ (g.windows window).os4.visible then g
  else
    let previous := g.focusedWindow
    let g := { g with focusedWindow := window }
    let g :=
      if previous ≠ NULL then
        let g := _glfwInputWindowFocus g previous false
        if (g.windows previous).monitor ≠ NULL ∧ (g.windows previous).autoIconify then
          _glfwIconifyWindowOS4 g previous
        else g
      else g
    _glfwInputWindowFocus g window true

/-- `_glfwWindowFocusedOS4`. -/
def _glfwWindowFocusedOS4 (g : GLFWlibrary) (window : Ptr) : Bool :=
  decide (g.focusedWindow = window)

/-- `_glfwWindowVisibleOS4`. -/
def _glfwWindowVisibleOS4 (g : GLFWlibrary) (window : Ptr) : Bool :=
  (g.windows window).os4.visible

/-! ## Key names -/

/-- `_glfwGetScancodeNameOS4`: the library state after the call and the returned
pointer. -/
def _glfwGetScancodeNameOS4 (g : GLFWlibrary) (scancode : Int) : GLFWlibrary × Ptr :=
  if scancode < GLFW_KEY_SPACE ∨ scancode > GLFW_KEY_LAST then
    (_glfwInputError g GLFW_INVALID_VALUE, NULL)
  else (g, g.keynames (g.keycodes scancode.toNat))

/-- `_glfwGetKeyScancodeOS4`. -/
def _glfwGetKeyScancodeOS4 (key : Int) : Int :=
  key

/-! ## Sequences of window calls -/

/-- One call of a window operation of the backend on the window at an address. -/
inductive WindowCall where
  | showWindow (window : Ptr)
  | hideWindow (window : Ptr)
  | focusWindow (window : Ptr)
  | iconifyWindow (window : Ptr)
  | restoreWindow (window : Ptr)
  | maximizeWindow (window : Ptr)
  | destroyWindow (window : Ptr)
deriving DecidableEq, Repr

/-- The window a call is made on. -/
def WindowCall.window : WindowCall → Ptr
  | .showWindow window => window
  | .hideWindow window => window
  | .focusWindow window => window
  | .iconifyWindow window => window
  | .restoreWindow window => window
  | .maximizeWindow window => window
  | .destroyWindow window => window

/-- The library state after one call. -/
def WindowCall.run (g : GLFWlibrary) : WindowCall → GLFWlibrary
  | .showWindow window => _glfwShowWindowOS4 g window
  | .hideWindow window => _glfwHideWindowOS4 g window
  | .focusWindow window => _glfwFocusWindowOS4 g window
  | .iconifyWindow window => _glfwIconifyWindowOS4 g window
  | .restoreWindow window => _glfwRestoreWindowOS4 g window
  | .maximizeWindow window => _glfwMaximizeWindowOS4 g window
  | .destroyWindow window => _glfwDestroyWindowOS4 g window

/-- The library state after a sequence of calls, first call first. -/
def runCalls (g : GLFWlibrary) : List WindowCall → GLFWlibrary
  | [] => g
  | call :: calls => runCalls (call.run g) calls

/-- The windows a sequence of calls has destroyed. -/
def destroyedBy : List WindowCall → List Ptr
  | [] => []
  | .destroyWindow window :: calls => window :: destroyedBy calls
  | _ :: calls => destroyedBy calls

/-- No call of the sequence is made on a window that an earlier call of the sequence
has destroyed; `destroyed` are the windows destroyed before the sequence. -/
def callsOnLiveWindows (destroyed : List Ptr) : List WindowCall → Bool
  | [] => true
  | call :: calls =>
    !destroyed.contains call.window &&
      callsOnLiveWindows (destroyedBy [call] ++ destroyed) calls

/-! ## Sample states -/

/-- A windowed-mode `_GLFWwindow` with the given native handle, cached position and
cached size, no size limits and no aspect ratio. -/
def GLFWwindow.sample (handle : Ptr) (xpos ypos width height : Int) : GLFWwindow where
  monitor := NULL
  autoIconify := true
  contextDestroy := false
  minwidth := GLFW_DONT_CARE
  minheight := GLFW_DONT_CARE
  maxwidth := GLFW_DONT_CARE
  maxheight := GLFW_DONT_CARE
  numer := GLFW_DONT_CARE
  denom := GLFW_DONT_CARE
  os4 :=
    { handle := handle
      xpos := xpos
      ypos := ypos
      width := width
      height := height
      lastCursorPosX := xpos
      lastCursorPosY := ypos
      visible := true
      iconified := false
      maximized := false
      resizable := true
      decorated := true
      floating := false
      transparent := false
      opacity := 1
      windowType := 0 }

/-- A library with two windows on the chain: the window at address `1` has the native
handle `100`, the window at address `2` has the native handle `200` and is the focused
one.  Key code and scancode coincide, and the name of the key `k` is at the address
`1000 + k`. -/
def GLFWlibrary.sample : GLFWlibrary where
  windows := fun p =>
    if p = 1 then GLFWwindow.sample 100 17 17 640 480
    else if p = 2 then GLFWwindow.sample 200 40 40 320 200
    else GLFWwindow.sample NULL 0 0 0 0
  monitors := fun _ => { window := NULL }
  windowList := [1, 2]
  focusedWindow := 2
  keycodes := fun r => r
  keynames := fun k => 1000 + k.toNat
  log := []

/-- An outside world: the keymap maps a raw key to one character, its own code; every
monitor runs 1920 by 1080 at the origin; the aspect computation is integer division;
`malloc` succeeds with a zeroed block. -/
def Native.sample : Native where
  mapRawKey := fun code _ => (1, code)
  getVideoMode := fun _ => { width := 1920, height := 1080 }
  getMonitorPos := fun _ => (0, 0)
  aspectHeight := fun width numer denom => width * denom / numer
  malloc := fun _ => some fun _ => 0

/-- A native world in which every window sits at the given left and top edge. -/
def NativeMemory.sample (left top : Int) : NativeMemory where
  window := fun _ =>
    { LeftEdge := left, TopEdge := top, Width := 640, Height := 480, MouseX := 5, MouseY := 6,
      BorderLeft := 1, BorderTop := 10, BorderRight := 1, BorderBottom := 1, WScreen := 1 }
  screen := fun _ => { MouseX := 50, MouseY := 60 }

/-- A message of the given class and code for the native window at `handle`. -/
def IntuiMessage.sample (cls code : Nat) (handle : Ptr) : IntuiMessage where
  Class := cls
  Code := code
  Qualifier := 0
  IAddress := NULL
  MouseX := 0
  MouseY := 0
  IDCMPWindow := handle

/-- A zeroed local record. -/
def MyIntuiMessage.sample : MyIntuiMessage where
  Class := 0
  Code := 0
  Qualifier := 0
  Gadget := NULL
  RelativeMouseX := 0
  RelativeMouseY := 0
  IDCMPWindow := NULL
  WindowMouseX := 0
  WindowMouseY := 0
  ScreenMouseX := 0
  ScreenMouseY := 0
  Width := 0
  Height := 0

/-- A message whose storage still holds the same content after `ReplyMsg`. -/
def Delivery.intact (imsg : IntuiMessage) (memory : NativeMemory) : Delivery where
  imsg := imsg
  memory := memory
  imsgReplied := imsg
  memoryReplied := memory

/-- A 2 by 2 image whose sixteen bytes are `0, 1, ..., 15`. -/
def GLFWimage.sample : GLFWimage where
  width := 2
  height := 2
  pixels := [0, 1, 2, 3, 4, 5, 6, 7, 8, 9, 10, 11, 12, 13, 14, 15]

/-- A message whose storage holds another code by the time it is read after
`ReplyMsg`, and whose native window has moved by then. -/
def Delivery.reused (imsg : IntuiMessage) (memory : NativeMemory) (code : Nat)
    (left top : Int) : Delivery where
  imsg := imsg
  memory := memory
  imsgReplied := { imsg with Code := code }
  memoryReplied := NativeMemory.sample left top

/-- The sample library with the first window limited to widths from 700 to 900. -/
def GLFWlibrary.limited : GLFWlibrary :=
  GLFWlibrary.sample.setWindow 1
    { GLFWwindow.sample 100 17 17 640 480 with minwidth := 700, maxwidth := 900 }

/-- A native world in which the window at `200` sits at `(999, 888)` and every other
window at the given left and top edge. -/
def NativeMemory.two (left top : Int) : NativeMemory where
  window := fun p =>
    if p = 200 then (NativeMemory.sample 999 888).window p
    else (NativeMemory.sample left top).window p
  screen := (NativeMemory.sample left top).screen

/-- A message whose storage names another native window by the time it is read after
`ReplyMsg`; the native objects are as before. -/
def Delivery.redirected (imsg : IntuiMessage) (memory : NativeMemory) (handle : Ptr) :
    Delivery where
  imsg := imsg
  memory := memory
  imsgReplied := { imsg with IDCMPWindow := handle }
  memoryReplied := memory

/-- The sample library with no focused window. -/
def GLFWlibrary.unfocused : GLFWlibrary :=
  { GLFWlibrary.sample with focusedWindow := NULL }

/-- A sequence of calls on the two windows of the sample library: the first window is
focused, hidden and destroyed, the second is shown and focused. -/
def WindowCall.sample : List WindowCall :=
  [.focusWindow 1, .hideWindow 1, .showWindow 2, .focusWindow 2, .maximizeWindow 2,
    .destroyWindow 1]

/-! ## Auxiliary definitions for the proofs -/

/-- The mask built from the five decisions of `OS4_TranslateState`. -/
def modsOfFlags (shift control alt super caps : Bool) : Nat :=
  (if shift then GLFW_MOD_SHIFT else 0) ||| (if control then GLFW_MOD_CONTROL else 0) |||
    (if alt then GLFW_MOD_ALT else 0) ||| (if super then GLFW_MOD_SUPER else 0) |||
    (if caps then GLFW_MOD_CAPS_LOCK else 0)

/-- The focused window, if there is one, is marked visible and is not among the
destroyed windows. -/
def focusInvariant (g : GLFWlibrary) (destroyed : List Ptr) : Prop :=
  g.focusedWindow ≠ NULL →
    (g.windows g.focusedWindow).os4.visible = true ∧ g.focusedWindow ∉ destroyed

/-! ## Window registry lookup: proofs -/

theorem OS4_FindWindow.loop_eq_null_iff (windows : Ptr → GLFWwindow) (h : Ptr) :
    ∀ l : List Ptr, NULL ∉ l →
      (OS4_FindWindow.loop windows h l = NULL ↔ ∀ w ∈ l, (windows w).os4.handle ≠ h) := by
  intro l
  induction l with
  | nil => intro _; simp [OS4_FindWindow.loop]
  | cons a l ih =>
    intro hwf
    have ha : a ≠ NULL := fun e => hwf (by simp [e])
    have hl : NULL ∉ l := fun e => hwf (List.mem_cons_of_mem _ e)
    by_cases hh : (windows a).os4.handle = h
    · simp [OS4_FindWindow.loop, hh, ha]
    · simp [OS4_FindWindow.loop, hh, ih hl]

theorem OS4_FindWindow.loop_first (windows : Ptr → GLFWwindow) (h w : Ptr) (after : List Ptr)
    (hw : (windows w).os4.handle = h) :
    ∀ before : List Ptr, (∀ v ∈ before, (windows v).os4.handle ≠ h) →
      OS4_FindWindow.loop windows h (before ++ w :: after) = w := by
  intro before
  induction before with
  | nil => intro _; simp [OS4_FindWindow.loop, hw]
  | cons a l ih =>
    intro hb
    have ha : (windows a).os4.handle ≠ h := hb a (by simp)
    have hl : ∀ v ∈ l, (windows v).os4.handle ≠ h := fun v hv => hb v (List.mem_cons_of_mem _ hv)
    simp [OS4_FindWindow.loop, ha, ih hl]

theorem OS4_FindWindow.loop_split (windows : Ptr → GLFWwindow) (h : Ptr) :
    ∀ l : List Ptr, OS4_FindWindow.loop windows h l ≠ NULL →
      ∃ before after, l = before ++ OS4_FindWindow.loop windows h l :: after ∧
        (windows (OS4_FindWindow.loop windows h l)).os4.handle = h ∧
        ∀ v ∈ before, (windows v).os4.handle ≠ h := by
  intro l
  induction l with
  | nil => intro hne; exact absurd rfl hne
  | cons a l ih =>
    intro hne
    by_cases hh : (windows a).os4.handle = h
    · refine ⟨[], l, ?_, ?_, ?_⟩ <;> simp [OS4_FindWindow.loop, hh]
    · have e : OS4_FindWindow.loop windows h (a :: l) = OS4_FindWindow.loop windows h l := by
        simp [OS4_FindWindow.loop, hh]
      rw [e] at hne ⊢
      obtain ⟨before, after, h1, h2, h3⟩ := ih hne
      refine ⟨a :: before, after, ?_, h2, ?_⟩
      · rw [List.cons_append, ← h1]
      · intro v hv
        rcases List.mem_cons.mp hv with rfl | hv
        · exact hh
        · exact h3 v hv

/-- C1: for every window list without a null entry and every native handle `h`,
`OS4_FindWindow` returns `NULL` if and only if no window on the list has the handle
`h`; whenever the list splits into windows that do not have the handle, a window `w`
that has it, and a rest, the result is `w`; and a result that is not `NULL` is such a
first window of the list. -/
theorem OS4_FindWindow_first_match (g : GLFWlibrary) (h : Ptr)
    (hwf : NULL ∉ g.windowList) :
    (OS4_FindWindow g h = NULL ↔ ∀ w ∈ g.windowList, (g.windows w).os4.handle ≠ h) ∧
    (∀ before w after, g.windowList = before ++ w :: after →
      (g.windows w).os4.handle = h → (∀ v ∈ before, (g.windows v).os4.handle ≠ h) →
      OS4_FindWindow g h = w) ∧
    (OS4_FindWindow g h ≠ NULL →
      ∃ before after, g.windowList = before ++ OS4_FindWindow g h :: after ∧
        (g.windows (OS4_FindWindow g h)).os4.handle = h ∧
        ∀ v ∈ before, (g.windows v).os4.handle ≠ h) := by
  refine ⟨OS4_FindWindow.loop_eq_null_iff g.windows h g.windowList hwf, ?_, ?_⟩
  · intro before w after hl hw hb
    unfold OS4_FindWindow
    rw [hl]
    exact OS4_FindWindow.loop_first g.windows h w after hw before hb
  · exact OS4_FindWindow.loop_split g.windows h g.windowList

/-- The lookup on the sample library: the handle `200` is found at the second window,
the handle `300` is not found. -/
theorem OS4_FindWindow_first_match_witness :
    NULL ∉ GLFWlibrary.sample.windowList ∧
    OS4_FindWindow GLFWlibrary.sample 200 = 2 ∧
    (OS4_FindWindow GLFWlibrary.sample 300 = NULL ↔
      ∀ w ∈ GLFWlibrary.sample.windowList, (GLFWlibrary.sample.windows w).os4.handle ≠ 300) :=
  ⟨by decide,
   (OS4_FindWindow_first_match GLFWlibrary.sample 200 (by decide)).2.1 [1] 2 [] rfl
     (by decide) (by decide),
   (OS4_FindWindow_first_match GLFWlibrary.sample 300 (by decide)).1⟩

/-! ## Event pump: proofs -/

theorem OS4_CopyIdcmpMessage_Class (memory : NativeMemory) (src : IntuiMessage)
    (dst : MyIntuiMessage) : (OS4_CopyIdcmpMessage memory src dst).Class = src.Class := by
  unfold OS4_CopyIdcmpMessage
  split <;> rfl

theorem OS4_CopyIdcmpMessage_Code (memory : NativeMemory) (src : IntuiMessage)
    (dst : MyIntuiMessage) : (OS4_CopyIdcmpMessage memory src dst).Code = src.Code := by
  unfold OS4_CopyIdcmpMessage
  split <;> rfl

theorem OS4_CopyIdcmpMessage_Qualifier (memory : NativeMemory) (src : IntuiMessage)
    (dst : MyIntuiMessage) :
    (OS4_CopyIdcmpMessage memory src dst).Qualifier = src.Qualifier := by
  unfold OS4_CopyIdcmpMessage
  split <;> rfl

theorem land_lor_eq_zero_iff (m a b : Nat) :
    m &&& (a ||| b) = 0 ↔ m &&& a = 0 ∧ m &&& b = 0 := by
  rw [Nat.and_or_distrib_left]
  constructor
  · intro h
    constructor
    · apply Nat.eq_of_testBit_eq
      intro i
      have := congrArg (fun n => n.testBit i) h
      simp only [Nat.testBit_or, Nat.zero_testBit, Bool.or_eq_false_iff] at this
      rw [this.1, Nat.zero_testBit]
    · apply Nat.eq_of_testBit_eq
      intro i
      have := congrArg (fun n => n.testBit i) h
      simp only [Nat.testBit_or, Nat.zero_testBit, Bool.or_eq_false_iff] at this
      rw [this.2, Nat.zero_testBit]
  · rintro ⟨h1, h2⟩
    rw [h1, h2]
    rfl

/-- C2: on the sample library the native handle `100` belongs to the window at address
`1` and the focused window is the one at address `2`; the pump delivers the close
request of a close message for the handle `100` to the window at address `2`, and with
no focused window it delivers the close request to `NULL`. -/
theorem closeRequest_delivered_to_focusedWindow :
    OS4_FindWindow GLFWlibrary.sample 100 = 1 ∧
    (_glfwPollEventsOS4 Native.sample GLFWlibrary.sample MyIntuiMessage.sample
      [Delivery.intact (IntuiMessage.sample IDCMP_CLOSEWINDOW 0 100)
        (NativeMemory.sample 17 17)]).log = [Effect.inputWindowCloseRequest 2] ∧
    (_glfwPollEventsOS4 Native.sample { GLFWlibrary.sample with focusedWindow := NULL }
      MyIntuiMessage.sample
      [Delivery.intact (IntuiMessage.sample IDCMP_CLOSEWINDOW 0 100)
        (NativeMemory.sample 17 17)]).log = [Effect.inputWindowCloseRequest NULL] := by
  decide

/-- One turn of the pump on a raw-key message with code `c`: it appends to the log
exactly one key event, with scancode `c & 0x7F` (at most 127), the key code of the
table at that scancode and the translated modifiers; the action is press when the code
that the message storage holds after the reply is below `0x80` and release otherwise;
the key event is followed by one character event exactly when that code is below `0x80`
and the translated character is non-zero and below `0x80`, with `plain` true exactly
when the modifiers hold neither control nor alt. -/
theorem rawkey_dispatch (nat : Native) (g : GLFWlibrary) (msg : MyIntuiMessage) (d : Delivery)
    (c : Nat) (hclass : d.imsg.Class = IDCMP_RAWKEY) (hcode : d.imsg.Code = c) :
    c &&& 0x7F ≤ 127 ∧
    (_glfwPollEventsOS4.iteration nat g msg d).1.log =
      g.log ++
        Effect.inputKey (OS4_FindWindow g d.imsg.IDCMPWindow) (g.keycodes (c &&& 0x7F))
          (c &&& 0x7F) (if d.imsgReplied.Code < 0x80 then GLFW_PRESS else GLFW_RELEASE)
          (OS4_TranslateState d.imsg.Qualifier) ::
        (if d.imsgReplied.Code < 0x80 ∧ OS4_TranslateUnicode nat c d.imsg.Qualifier ≠ 0 ∧
            OS4_TranslateUnicode nat c d.imsg.Qualifier < 0x80 then
          [Effect.inputChar (OS4_FindWindow g d.imsg.IDCMPWindow)
            (OS4_TranslateUnicode nat c d.imsg.Qualifier)
            (OS4_TranslateState d.imsg.Qualifier)
            (decide (OS4_TranslateState d.imsg.Qualifier &&& GLFW_MOD_CONTROL = 0 ∧
              OS4_TranslateState d.imsg.Qualifier &&& GLFW_MOD_ALT = 0))]
        else []) := by
  have hr : c &&& 0x7F ≤ 127 := Nat.and_le_right
  have hmod : (c &&& 0x7F) % 256 = c &&& 0x7F := Nat.mod_eq_of_lt (by omega)
  refine ⟨hr, ?_⟩
  have hne : IDCMP_RAWKEY ≠ IDCMP_MOUSEMOVE := by decide
  simp only [_glfwPollEventsOS4.iteration, _glfwPollEventsOS4.dispatch,
    OS4_CopyIdcmpMessage_Class, OS4_CopyIdcmpMessage_Code, OS4_CopyIdcmpMessage_Qualifier,
    hclass, hcode, hne, if_false, if_true, hmod, land_lor_eq_zero_iff]
  by_cases hpress : d.imsgReplied.Code < 0x80
  · by_cases htext : OS4_TranslateUnicode nat c d.imsg.Qualifier ≠ 0 ∧
        OS4_TranslateUnicode nat c d.imsg.Qualifier < 0x80
    · simp [hpress, htext, _glfwInputKey, _glfwInputChar, GLFWlibrary.emit]
    · simp [hpress, htext, _glfwInputKey, _glfwInputChar, GLFWlibrary.emit]
  · simp [hpress, _glfwInputKey, GLFWlibrary.emit]

/-- C3: on the sample library, a raw-key message with the code `0x45`, a press, whose
storage holds `0xC5` by the time the dispatch runs: the copy holds the code `0x45`, yet
the pump delivers one key release and no character, where an intact message gives a
key press followed by a character; and a message with the code `0xC5`, a release, whose
storage holds `0x45` by then is delivered as a key press followed by a character. -/
theorem rawkey_press_delivered_as_release :
    (_glfwPollEventsOS4.iteration Native.sample GLFWlibrary.sample MyIntuiMessage.sample
      (Delivery.reused (IntuiMessage.sample IDCMP_RAWKEY 0x45 100) (NativeMemory.sample 17 17)
        0xC5 17 17)).2.Code = 0x45 ∧
    (_glfwPollEventsOS4 Native.sample GLFWlibrary.sample MyIntuiMessage.sample
      [Delivery.reused (IntuiMessage.sample IDCMP_RAWKEY 0x45 100) (NativeMemory.sample 17 17)
        0xC5 17 17]).log =
      [Effect.inputKey 1 0x45 0x45 GLFW_RELEASE 0] ∧
    (_glfwPollEventsOS4 Native.sample GLFWlibrary.sample MyIntuiMessage.sample
      [Delivery.intact (IntuiMessage.sample IDCMP_RAWKEY 0x45 100)
        (NativeMemory.sample 17 17)]).log =
      [Effect.inputKey 1 0x45 0x45 GLFW_PRESS 0, Effect.inputChar 1 0x45 0 true] ∧
    (_glfwPollEventsOS4 Native.sample GLFWlibrary.sample MyIntuiMessage.sample
      [Delivery.reused (IntuiMessage.sample IDCMP_RAWKEY 0xC5 100) (NativeMemory.sample 17 17)
        0x45 17 17]).log =
      [Effect.inputKey 1 0x45 0x45 GLFW_PRESS 0, Effect.inputChar 1 0x45 0 true] := by
  decide

/-! ## Modifier and button translation: proofs -/

theorem land_eq_of_low_byte (s s' c : Nat) (hc : 0xFF &&& c = c)
    (h : s' &&& 0xFF = s &&& 0xFF) : s' &&& c = s &&& c := by
  rw [← hc, ← Nat.and_assoc, ← Nat.and_assoc, h]

theorem modsOfFlags_bits : ∀ a b c d e : Bool,
    (modsOfFlags a b c d e &&& GLFW_MOD_SHIFT ≠ 0 ↔ a = true) ∧
    (modsOfFlags a b c d e &&& GLFW_MOD_CONTROL ≠ 0 ↔ b = true) ∧
    (modsOfFlags a b c d e &&& GLFW_MOD_ALT ≠ 0 ↔ c = true) ∧
    (modsOfFlags a b c d e &&& GLFW_MOD_SUPER ≠ 0 ↔ d = true) ∧
    (modsOfFlags a b c d e &&& GLFW_MOD_CAPS_LOCK ≠ 0 ↔ e = true) ∧
    (modsOfFlags a b c d e &&&
        (GLFW_MOD_SHIFT ||| GLFW_MOD_CONTROL ||| GLFW_MOD_ALT ||| GLFW_MOD_SUPER |||
          GLFW_MOD_CAPS_LOCK) = modsOfFlags a b c d e) := by
  decide

theorem OS4_TranslateState_eq_modsOfFlags (s : Nat) :
    OS4_TranslateState s =
      modsOfFlags (decide (s &&& IEQUALIFIER_LSHIFT ≠ 0 ∨ s &&& IEQUALIFIER_RSHIFT ≠ 0))
        (decide (s &&& IEQUALIFIER_CONTROL ≠ 0))
        (decide (s &&& IEQUALIFIER_LALT ≠ 0 ∨ s &&& IEQUALIFIER_RALT ≠ 0))
        (decide (s &&& IEQUALIFIER_LCOMMAND ≠ 0 ∨ s &&& IEQUALIFIER_RCOMMAND ≠ 0))
        (decide (s &&& IEQUALIFIER_CAPSLOCK ≠ 0)) := by
  unfold OS4_TranslateState modsOfFlags
  simp only [decide_eq_true_eq]
  split_ifs <;> rfl

theorem OS4_TranslateState_congr (s s' : Nat) (h : s' &&& 0xFF = s &&& 0xFF) :
    OS4_TranslateState s' = OS4_TranslateState s := by
  unfold OS4_TranslateState
  rw [land_eq_of_low_byte s s' IEQUALIFIER_LSHIFT (by decide) h,
    land_eq_of_low_byte s s' IEQUALIFIER_RSHIFT (by decide) h,
    land_eq_of_low_byte s s' IEQUALIFIER_CAPSLOCK (by decide) h,
    land_eq_of_low_byte s s' IEQUALIFIER_CONTROL (by decide) h,
    land_eq_of_low_byte s s' IEQUALIFIER_LALT (by decide) h,
    land_eq_of_low_byte s s' IEQUALIFIER_RALT (by decide) h,
    land_eq_of_low_byte s s' IEQUALIFIER_LCOMMAND (by decide) h,
    land_eq_of_low_byte s s' IEQUALIFIER_RCOMMAND (by decide) h]

/-- C4: for every qualifier word `s`, the mask of `OS4_TranslateState` has the shift bit
iff `s` has the left or the right shift qualifier, the control bit iff the control
qualifier, the alt bit iff the left or the right alt qualifier, the super bit iff the
left or the right command qualifier, the caps-lock bit iff the caps-lock qualifier, and
no other bit; it is the same for every word with the same eight qualifier bits, and `0`
when none of the eight is set. -/
theorem OS4_TranslateState_bits (s : Nat) :
    (OS4_TranslateState s &&& GLFW_MOD_SHIFT ≠ 0 ↔
      (s &&& IEQUALIFIER_LSHIFT ≠ 0 ∨ s &&& IEQUALIFIER_RSHIFT ≠ 0)) ∧
    (OS4_TranslateState s &&& GLFW_MOD_CONTROL ≠ 0 ↔ s &&& IEQUALIFIER_CONTROL ≠ 0) ∧
    (OS4_TranslateState s &&& GLFW_MOD_ALT ≠ 0 ↔
      (s &&& IEQUALIFIER_LALT ≠ 0 ∨ s &&& IEQUALIFIER_RALT ≠ 0)) ∧
    (OS4_TranslateState s &&& GLFW_MOD_SUPER ≠ 0 ↔
      (s &&& IEQUALIFIER_LCOMMAND ≠ 0 ∨ s &&& IEQUALIFIER_RCOMMAND ≠ 0)) ∧
    (OS4_TranslateState s &&& GLFW_MOD_CAPS_LOCK ≠ 0 ↔ s &&& IEQUALIFIER_CAPSLOCK ≠ 0) ∧
    (OS4_TranslateState s &&&
        (GLFW_MOD_SHIFT ||| GLFW_MOD_CONTROL ||| GLFW_MOD_ALT ||| GLFW_MOD_SUPER |||
          GLFW_MOD_CAPS_LOCK) = OS4_TranslateState s) ∧
    (∀ s' : Nat,
      s' &&& (IEQUALIFIER_LSHIFT ||| IEQUALIFIER_RSHIFT ||| IEQUALIFIER_CAPSLOCK |||
          IEQUALIFIER_CONTROL ||| IEQUALIFIER_LALT ||| IEQUALIFIER_RALT |||
          IEQUALIFIER_LCOMMAND ||| IEQUALIFIER_RCOMMAND) =
        s &&& (IEQUALIFIER_LSHIFT ||| IEQUALIFIER_RSHIFT ||| IEQUALIFIER_CAPSLOCK |||
          IEQUALIFIER_CONTROL ||| IEQUALIFIER_LALT ||| IEQUALIFIER_RALT |||
          IEQUALIFIER_LCOMMAND ||| IEQUALIFIER_RCOMMAND) →
      OS4_TranslateState s' = OS4_TranslateState s) ∧
    (s &&& IEQUALIFIER_LSHIFT = 0 → s &&& IEQUALIFIER_RSHIFT = 0 →
      s &&& IEQUALIFIER_CAPSLOCK = 0 → s &&& IEQUALIFIER_CONTROL = 0 →
      s &&& IEQUALIFIER_LALT = 0 → s &&& IEQUALIFIER_RALT = 0 →
      s &&& IEQUALIFIER_LCOMMAND = 0 → s &&& IEQUALIFIER_RCOMMAND = 0 →
      OS4_TranslateState s = 0) := by
  have hb := modsOfFlags_bits
    (decide (s &&& IEQUALIFIER_LSHIFT ≠ 0 ∨ s &&& IEQUALIFIER_RSHIFT ≠ 0))
    (decide (s &&& IEQUALIFIER_CONTROL ≠ 0))
    (decide (s &&& IEQUALIFIER_LALT ≠ 0 ∨ s &&& IEQUALIFIER_RALT ≠ 0))
    (decide (s &&& IEQUALIFIER_LCOMMAND ≠ 0 ∨ s &&& IEQUALIFIER_RCOMMAND ≠ 0))
    (decide (s &&& IEQUALIFIER_CAPSLOCK ≠ 0))
  rw [← OS4_TranslateState_eq_modsOfFlags s] at hb
  simp only [decide_eq_true_eq] at hb
  obtain ⟨h1, h2, h3, h4, h5, h6⟩ := hb
  refine ⟨h1, h2, h3, h4, h5, h6, ?_, ?_⟩
  · intro s' h
    exact OS4_TranslateState_congr s s' h
  · intro e1 e2 e3 e4 e5 e6 e7 e8
    unfold OS4_TranslateState
    rw [e1, e2, e3, e4, e5, e6, e7, e8]
    rfl

theorem notUpPrefix_testBit (i : Nat) : notUpPrefix.testBit i = decide (i < 32 ∧ i ≠ 7) := by
  by_cases hi : i < 32
  · interval_cases i <;> decide
  · have hlt : notUpPrefix < 2 ^ i :=
      calc notUpPrefix < 2 ^ 32 := by decide
        _ ≤ 2 ^ i := Nat.pow_le_pow_right (by norm_num) (by omega)
    rw [Nat.testBit_lt_two_pow hlt]
    simp [hi]

theorem upPrefix_testBit (i : Nat) : IECODE_UP_PREFIX.testBit i = decide (7 = i) := by
  have e : IECODE_UP_PREFIX = 2 ^ 7 := by decide
  rw [e, Nat.testBit_two_pow]

theorem testBit_of_lt_word (c i : Nat) (hc : c < 2 ^ 32) (hi : ¬ i < 32) :
    c.testBit i = false :=
  Nat.testBit_lt_two_pow (lt_of_lt_of_le hc (Nat.pow_le_pow_right (by norm_num) (by omega)))

theorem xor_upPrefix_land (c : Nat) :
    (c ^^^ IECODE_UP_PREFIX) &&& notUpPrefix = c &&& notUpPrefix := by
  rw [Nat.and_xor_distrib_right]
  have e : IECODE_UP_PREFIX &&& notUpPrefix = 0 := by decide
  rw [e, Nat.xor_zero]

theorem eq_of_land_notUpPrefix (c v : Nat) (hc : c < 2 ^ 32) (h : c &&& notUpPrefix = v) :
    c = v ∨ c = v ||| IECODE_UP_PREFIX := by
  by_cases hb : c.testBit 7 = true
  · right
    rw [← h]
    apply Nat.eq_of_testBit_eq
    intro i
    rw [Nat.testBit_or, Nat.testBit_and, notUpPrefix_testBit, upPrefix_testBit]
    by_cases h7 : i = 7
    · subst h7
      simp [hb]
    · by_cases hi : i < 32
      · have h7' : ¬ 7 = i := fun e => h7 e.symm
        simp [hi, h7, h7']
      · simp [hi, testBit_of_lt_word c i hc hi]
        omega
  · left
    rw [← h]
    apply Nat.eq_of_testBit_eq
    intro i
    rw [Nat.testBit_and, notUpPrefix_testBit]
    by_cases h7 : i = 7
    · subst h7
      simpa using hb
    · by_cases hi : i < 32
      · simp [hi, h7]
      · simp [hi, testBit_of_lt_word c i hc hi]

/-- For every 16-bit code `c`, `OS4_GetButtonState` is release iff `c` has the
up-prefix bit and press otherwise; `OS4_GetButton` does not change when that bit is
flipped; it is the left, right, middle button for the left, right, middle button code
with or without the up-prefix bit, and `0` for every other code; and for a mouse-button
message, one turn of the pump appends to the log exactly one mouse click with the
modifiers `0`, whose button and state are those of the code that the message storage
holds after the reply. -/
theorem mouse_button_translation (c : Nat) (hc : c < 65536) :
    (OS4_GetButtonState c = GLFW_RELEASE ↔ c &&& IECODE_UP_PREFIX ≠ 0) ∧
    (OS4_GetButtonState c = GLFW_PRESS ↔ c &&& IECODE_UP_PREFIX = 0) ∧
    OS4_GetButton (c ^^^ IECODE_UP_PREFIX) = OS4_GetButton c ∧
    (c = IECODE_LBUTTON ∨ c = IECODE_LBUTTON ||| IECODE_UP_PREFIX →
      OS4_GetButton c = GLFW_MOUSE_BUTTON_LEFT) ∧
    (c = IECODE_RBUTTON ∨ c = IECODE_RBUTTON ||| IECODE_UP_PREFIX →
      OS4_GetButton c = GLFW_MOUSE_BUTTON_RIGHT) ∧
    (c = IECODE_MBUTTON ∨ c = IECODE_MBUTTON ||| IECODE_UP_PREFIX →
      OS4_GetButton c = GLFW_MOUSE_BUTTON_MIDDLE) ∧
    (c ≠ IECODE_LBUTTON → c ≠ IECODE_LBUTTON ||| IECODE_UP_PREFIX →
      c ≠ IECODE_RBUTTON → c ≠ IECODE_RBUTTON ||| IECODE_UP_PREFIX →
      c ≠ IECODE_MBUTTON → c ≠ IECODE_MBUTTON ||| IECODE_UP_PREFIX →
      OS4_GetButton c = 0) ∧
    (∀ (nat : Native) (g : GLFWlibrary) (msg : MyIntuiMessage) (d : Delivery),
      d.imsg.Class = IDCMP_MOUSEBUTTONS →
      (_glfwPollEventsOS4.iteration nat g msg d).1.log =
        g.log ++ [Effect.inputMouseClick (OS4_FindWindow g d.imsg.IDCMPWindow)
          (OS4_GetButton d.imsgReplied.Code) (OS4_GetButtonState d.imsgReplied.Code) 0]) := by
  have hc32 : c < 2 ^ 32 := lt_trans hc (by norm_num)
  refine ⟨?_, ?_, ?_, ?_, ?_, ?_, ?_, ?_⟩
  · unfold OS4_GetButtonState
    split_ifs with h
    · simp [h]
    · simp only [h, not_false_eq_true, iff_false]
      decide
  · unfold OS4_GetButtonState
    split_ifs with h
    · simp only [h, iff_false]
      decide
    · simp only [true_iff]
      exact not_not.mp h
  · unfold OS4_GetButton
    rw [xor_upPrefix_land]
  · rintro (rfl | rfl) <;> decide
  · rintro (rfl | rfl) <;> decide
  · rintro (rfl | rfl) <;> decide
  · intro h1 h2 h3 h4 h5 h6
    unfold OS4_GetButton
    have hR : c &&& notUpPrefix ≠ IECODE_RBUTTON := fun e =>
      (eq_of_land_notUpPrefix c _ hc32 e).elim h3 h4
    have hM : c &&& notUpPrefix ≠ IECODE_MBUTTON := fun e =>
      (eq_of_land_notUpPrefix c _ hc32 e).elim h5 h6
    rw [if_neg hR, if_neg hM]
    split_ifs <;> rfl
  · intro nat g msg d hclass
    have hne1 : IDCMP_MOUSEBUTTONS ≠ IDCMP_MOUSEMOVE := by decide
    have hne2 : IDCMP_MOUSEBUTTONS ≠ IDCMP_RAWKEY := by decide
    simp only [_glfwPollEventsOS4.iteration, _glfwPollEventsOS4.dispatch,
      OS4_CopyIdcmpMessage_Class, hclass, hne1, hne2, if_false, if_true,
      _glfwInputMouseClick, GLFWlibrary.emit]

/-- C5: on the sample library, a mouse-button message with the code `0x68`, the left
button pressed, whose storage holds `0xE9` by the time the dispatch runs: the copy
holds the code `0x68`, whose button is the left one and whose state is press, yet the
pump delivers one click of the right button with the state release; an intact message
gives the left button with the state press. -/
theorem mouse_click_reads_replied_code :
    (_glfwPollEventsOS4.iteration Native.sample GLFWlibrary.sample MyIntuiMessage.sample
      (Delivery.reused (IntuiMessage.sample IDCMP_MOUSEBUTTONS 0x68 100)
        (NativeMemory.sample 17 17) 0xE9 17 17)).2.Code = 0x68 ∧
    OS4_GetButton 0x68 = GLFW_MOUSE_BUTTON_LEFT ∧
    OS4_GetButtonState 0x68 = GLFW_PRESS ∧
    (_glfwPollEventsOS4 Native.sample GLFWlibrary.sample MyIntuiMessage.sample
      [Delivery.reused (IntuiMessage.sample IDCMP_MOUSEBUTTONS 0x68 100)
        (NativeMemory.sample 17 17) 0xE9 17 17]).log =
      [Effect.inputMouseClick 1 GLFW_MOUSE_BUTTON_RIGHT GLFW_RELEASE 0] ∧
    (_glfwPollEventsOS4 Native.sample GLFWlibrary.sample MyIntuiMessage.sample
      [Delivery.intact (IntuiMessage.sample IDCMP_MOUSEBUTTONS 0x68 100)
        (NativeMemory.sample 17 17)]).log =
      [Effect.inputMouseClick 1 GLFW_MOUSE_BUTTON_LEFT GLFW_PRESS 0] := by
  decide

/-! ## Cursor image conversion: proofs -/

/-- C6: on the 2 by 2 image with the bytes `0, ..., 15`, `OS4_CopyImageData` returns a
buffer whose second row holds the source bytes `4, ..., 11` instead of `8, ..., 15`: the
buffer is not a copy of the pixel data. -/
theorem OS4_CopyImageData_second_row :
    OS4_CopyImageData Native.sample GLFWimage.sample =
      some (some [0, 1, 2, 3, 4, 5, 6, 7, 4, 5, 6, 7, 8, 9, 10, 11]) ∧
    OS4_CopyImageData Native.sample GLFWimage.sample ≠
      some (some GLFWimage.sample.pixels) := by
  decide

/-! ## Cached position and size: proofs -/

theorem _glfwSetWindowPosOS4_same (g : GLFWlibrary) (window : Ptr) (x y : Int)
    (hx : (g.windows window).os4.xpos = x) (hy : (g.windows window).os4.ypos = y) :
    _glfwSetWindowPosOS4 g window x y = g := by
  unfold _glfwSetWindowPosOS4
  split_ifs with h1 h2
  · rfl
  · exact absurd h2 (by simp [hx, hy])
  · rfl

theorem _glfwSetWindowSizeOS4_same (g : GLFWlibrary) (window : Ptr) (w h : Int)
    (hw : (g.windows window).os4.width = w) (hh : (g.windows window).os4.height = h) :
    _glfwSetWindowSizeOS4 g window w h = g := by
  unfold _glfwSetWindowSizeOS4
  split_ifs with h1 h2
  · rfl
  · exact absurd h2 (by simp [hw, hh])
  · rfl

theorem _glfwSetWindowPosOS4_cached (g : GLFWlibrary) (window : Ptr) (x y : Int)
    (hmon : (g.windows window).monitor = NULL) :
    ((_glfwSetWindowPosOS4 g window x y).windows window).os4.xpos = x ∧
    ((_glfwSetWindowPosOS4 g window x y).windows window).os4.ypos = y := by
  unfold _glfwSetWindowPosOS4
  rw [if_neg (by simp [hmon])]
  split_ifs with h
  · simp [GLFWlibrary.setOS4, GLFWlibrary.setWindow, GLFWlibrary.emit, _glfwInputWindowPos]
  · simp only [ne_eq, not_or, not_not] at h
    exact h

theorem _glfwSetWindowSizeOS4_cached (g : GLFWlibrary) (window : Ptr) (w h : Int)
    (hmon : (g.windows window).monitor = NULL) :
    ((_glfwSetWindowSizeOS4 g window w h).windows window).os4.width = w ∧
    ((_glfwSetWindowSizeOS4 g window w h).windows window).os4.height = h := by
  unfold _glfwSetWindowSizeOS4
  rw [if_neg (by simp [hmon])]
  split_ifs with h'
  · simp [GLFWlibrary.setOS4, GLFWlibrary.setWindow, GLFWlibrary.emit, _glfwInputWindowSize,
      _glfwInputFramebufferSize]
  · simp only [ne_eq, not_or, not_not] at h'
    exact h'

theorem _glfwSetWindowSizeOS4_log (g : GLFWlibrary) (window : Ptr) (w h : Int)
    (hmon : (g.windows window).monitor = NULL) :
    (_glfwSetWindowSizeOS4 g window w h).log =
      g.log ++
        (if _glfwGetWindowSizeOS4 g window ≠ (w, h) then
          [Effect.inputWindowSize window w h, Effect.inputFramebufferSize window w h,
            Effect.setWindowSizeAttrs (g.windows window).os4.handle w h]
        else []) := by
  unfold _glfwSetWindowSizeOS4 _glfwGetWindowSizeOS4
  rw [if_neg (by simp [hmon])]
  by_cases hd : (g.windows window).os4.width ≠ w ∨ (g.windows window).os4.height ≠ h
  · have hne : ((g.windows window).os4.width, (g.windows window).os4.height) ≠ (w, h) := by
      intro e
      rcases hd with hd | hd
      · exact hd (congrArg Prod.fst e)
      · exact hd (congrArg Prod.snd e)
    rw [if_pos hd, if_pos hne]
    simp [GLFWlibrary.setOS4, GLFWlibrary.setWindow, GLFWlibrary.emit, _glfwInputWindowSize,
      _glfwInputFramebufferSize]
  · have heq : ¬ ((g.windows window).os4.width, (g.windows window).os4.height) ≠ (w, h) := by
      simp only [ne_eq, not_or, not_not] at hd
      simp [hd.1, hd.2]
    rw [if_neg hd, if_neg heq]
    simp

/-- C7: for a window with no monitor attached and all integers `x`, `y`, `w`, `h`: after
`_glfwSetWindowPosOS4` the position getter returns `(x, y)`; after
`_glfwSetWindowSizeOS4` the size getter and the framebuffer-size getter return
`(w, h)`; the position notification, resp. the size and framebuffer-size
notifications, are appended to the log exactly when the requested value differs from
the cached one; and repeating either call leaves the whole state as it is. -/
theorem cached_position_and_size (g : GLFWlibrary) (window : Ptr) (x y w h : Int)
    (hmon : (g.windows window).monitor = NULL) :
    _glfwGetWindowPosOS4 (_glfwSetWindowPosOS4 g window x y) window = (x, y) ∧
    _glfwGetWindowSizeOS4 (_glfwSetWindowSizeOS4 g window w h) window = (w, h) ∧
    _glfwGetFramebufferSizeOS4 (_glfwSetWindowSizeOS4 g window w h) window = (w, h) ∧
    (_glfwSetWindowPosOS4 g window x y).log =
      g.log ++
        (if _glfwGetWindowPosOS4 g window ≠ (x, y) then
          [Effect.inputWindowPos window x y,
            Effect.setWindowPosAttrs (g.windows window).os4.handle x y]
        else []) ∧
    (_glfwSetWindowSizeOS4 g window w h).log =
      g.log ++
        (if _glfwGetWindowSizeOS4 g window ≠ (w, h) then
          [Effect.inputWindowSize window w h, Effect.inputFramebufferSize window w h,
            Effect.setWindowSizeAttrs (g.windows window).os4.handle w h]
        else []) ∧
    _glfwSetWindowPosOS4 (_glfwSetWindowPosOS4 g window x y) window x y =
      _glfwSetWindowPosOS4 g window x y ∧
    _glfwSetWindowSizeOS4 (_glfwSetWindowSizeOS4 g window w h) window w h =
      _glfwSetWindowSizeOS4 g window w h := by
  have hp := _glfwSetWindowPosOS4_cached g window x y hmon
  have hs := _glfwSetWindowSizeOS4_cached g window w h hmon
  refine ⟨?_, ?_, ?_, ?_, _glfwSetWindowSizeOS4_log g window w h hmon,
    _glfwSetWindowPosOS4_same _ window x y hp.1 hp.2,
    _glfwSetWindowSizeOS4_same _ window w h hs.1 hs.2⟩
  · simp [_glfwGetWindowPosOS4, hp.1, hp.2]
  · simp [_glfwGetWindowSizeOS4, hs.1, hs.2]
  · simp [_glfwGetFramebufferSizeOS4, hs.1, hs.2]
  · unfold _glfwSetWindowPosOS4 _glfwGetWindowPosOS4
    rw [if_neg (by simp [hmon])]
    by_cases hd : (g.windows window).os4.xpos ≠ x ∨ (g.windows window).os4.ypos ≠ y
    · have hne : ((g.windows window).os4.xpos, (g.windows window).os4.ypos) ≠ (x, y) := by
        intro e
        rcases hd with hd | hd
        · exact hd (congrArg Prod.fst e)
        · exact hd (congrArg Prod.snd e)
      rw [if_pos hd, if_pos hne]
      simp [GLFWlibrary.setOS4, GLFWlibrary.setWindow, GLFWlibrary.emit, _glfwInputWindowPos]
    · have heq : ¬ ((g.windows window).os4.xpos, (g.windows window).os4.ypos) ≠ (x, y) := by
        simp only [ne_eq, not_or, not_not] at hd
        simp [hd.1, hd.2]
      rw [if_neg hd, if_neg heq]
      simp

/-- Moving and resizing the first window of the sample library. -/
theorem cached_position_and_size_witness :
    (GLFWlibrary.sample.windows 1).monitor = NULL ∧
    _glfwGetWindowPosOS4 (_glfwSetWindowPosOS4 GLFWlibrary.sample 1 30 40) 1 = (30, 40) ∧
    _glfwGetWindowSizeOS4 (_glfwSetWindowSizeOS4 GLFWlibrary.sample 1 800 600) 1 = (800, 600) :=
  ⟨rfl, (cached_position_and_size GLFWlibrary.sample 1 30 40 800 600 rfl).1,
    (cached_position_and_size GLFWlibrary.sample 1 30 40 800 600 rfl).2.1⟩

/-! ## Monitor attach: proofs -/

/-- C8: for every window and every non-null monitor `m` other than the window's current
monitor, after `_glfwSetWindowMonitorOS4` the cached width and height are those of the
current video mode of `m`, the cached position is the position of `m`, the window is
marked visible, its monitor is `m` and the window field of `m` is this window; and if
the window held a monitor before whose window field was this window, that field is
`NULL` afterwards. -/
theorem setWindowMonitor_attach (nat : Native) (g : GLFWlibrary) (window m : Ptr)
    (xpos ypos width height refreshRate : Int)
    (hm : m ≠ NULL) (hdiff : (g.windows window).monitor ≠ m) :
    ((_glfwSetWindowMonitorOS4 nat g window m xpos ypos width height refreshRate).windows
        window).os4.width = (nat.getVideoMode m).width ∧
    ((_glfwSetWindowMonitorOS4 nat g window m xpos ypos width height refreshRate).windows
        window).os4.height = (nat.getVideoMode m).height ∧
    ((_glfwSetWindowMonitorOS4 nat g window m xpos ypos width height refreshRate).windows
        window).os4.xpos = (nat.getMonitorPos m).1 ∧
    ((_glfwSetWindowMonitorOS4 nat g window m xpos ypos width height refreshRate).windows
        window).os4.ypos = (nat.getMonitorPos m).2 ∧
    ((_glfwSetWindowMonitorOS4 nat g window m xpos ypos width height refreshRate).windows
        window).os4.visible = true ∧
    ((_glfwSetWindowMonitorOS4 nat g window m xpos ypos width height refreshRate).windows
        window).monitor = m ∧
    ((_glfwSetWindowMonitorOS4 nat g window m xpos ypos width height refreshRate).monitors
        m).window = window ∧
    ((g.windows window).monitor ≠ NULL →
      (g.monitors (g.windows window).monitor).window = window →
      ((_glfwSetWindowMonitorOS4 nat g window m xpos ypos width height refreshRate).monitors
        (g.windows window).monitor).window = NULL) := by
  unfold _glfwSetWindowMonitorOS4
  rw [if_neg hdiff]
  by_cases hold : (g.windows window).monitor ≠ NULL
  · by_cases hown : (g.monitors (g.windows window).monitor).window ≠ window
    · simp [hold, hown, hm, releaseMonitor, _glfwInputWindowMonitor, acquireMonitor,
        fitToMonitor, _glfwInputMonitorWindow, GLFWlibrary.setOS4, GLFWlibrary.setWindow,
        GLFWlibrary.emit]
    · simp [hold, hown, hm, hdiff, releaseMonitor, _glfwInputWindowMonitor, acquireMonitor,
        fitToMonitor, _glfwInputMonitorWindow, GLFWlibrary.setOS4, GLFWlibrary.setWindow,
        GLFWlibrary.emit, Function.update_noteq]
  · simp [hold, hm, _glfwInputWindowMonitor, acquireMonitor,
      fitToMonitor, _glfwInputMonitorWindow, GLFWlibrary.setOS4, GLFWlibrary.setWindow,
      GLFWlibrary.emit]

/-- Attaching the first window of the sample library to the monitor at address `7`. -/
theorem setWindowMonitor_attach_witness :
    (7 : Ptr) ≠ NULL ∧ (GLFWlibrary.sample.windows 1).monitor ≠ 7 ∧
    ((_glfwSetWindowMonitorOS4 Native.sample GLFWlibrary.sample 1 7 0 0 640 480 60).windows
        1).os4.width = 1920 ∧
    ((_glfwSetWindowMonitorOS4 Native.sample GLFWlibrary.sample 1 7 0 0 640 480 60).monitors
        7).window = 1 :=
  ⟨by decide, by decide,
    (setWindowMonitor_attach Native.sample GLFWlibrary.sample 1 7 0 0 640 480 60 (by decide)
      (by decide)).1,
    (setWindowMonitor_attach Native.sample GLFWlibrary.sample 1 7 0 0 640 480 60 (by decide)
      (by decide)).2.2.2.2.2.2.1⟩

/-! ## Size limits: proofs -/

theorem clamp_within (lo hi v : Int) (hlo : lo ≠ GLFW_DONT_CARE → lo ≤ v)
    (hhi : hi ≠ GLFW_DONT_CARE → v ≤ hi) :
    (if lo ≠ GLFW_DONT_CARE ∧ v < lo then lo
      else if hi ≠ GLFW_DONT_CARE ∧ v > hi then hi else v) = v := by
  split_ifs with h1 h2
  · have := hlo h1.1
    omega
  · have := hhi h2.1
    omega
  · rfl

theorem clamp_bounds (lo hi v : Int)
    (hord : lo ≠ GLFW_DONT_CARE → hi ≠ GLFW_DONT_CARE → lo ≤ hi) :
    (lo ≠ GLFW_DONT_CARE →
      lo ≤ (if lo ≠ GLFW_DONT_CARE ∧ v < lo then lo
        else if hi ≠ GLFW_DONT_CARE ∧ v > hi then hi else v)) ∧
    (hi ≠ GLFW_DONT_CARE →
      (if lo ≠ GLFW_DONT_CARE ∧ v < lo then lo
        else if hi ≠ GLFW_DONT_CARE ∧ v > hi then hi else v) ≤ hi) := by
  constructor
  · intro hlo
    split_ifs with h1 h2
    · exact le_refl _
    · exact hord hlo h2.1
    · have : ¬ v < lo := fun h => h1 ⟨hlo, h⟩
      omega
  · intro hhi
    split_ifs with h1 h2
    · exact hord h1.1 hhi
    · exact le_refl _
    · have : ¬ v > hi := fun h => h2 ⟨hhi, h⟩
      omega

theorem applySizeLimits_no_ratio (nat : Native) (win : GLFWwindow) (wd ht : Int)
    (hratio : win.numer = GLFW_DONT_CARE ∨ win.denom = GLFW_DONT_CARE) :
    applySizeLimits nat win wd ht =
      ((if win.minwidth ≠ GLFW_DONT_CARE ∧ wd < win.minwidth then win.minwidth
          else if win.maxwidth ≠ GLFW_DONT_CARE ∧ wd > win.maxwidth then win.maxwidth else wd),
        (if win.minheight ≠ GLFW_DONT_CARE ∧ ht < win.minheight then win.minheight
          else if win.maxheight ≠ GLFW_DONT_CARE ∧ ht > win.maxheight then win.maxheight
          else ht)) := by
  unfold applySizeLimits
  have hr : ¬ (win.numer ≠ GLFW_DONT_CARE ∧ win.denom ≠ GLFW_DONT_CARE) := by
    rintro ⟨h1, h2⟩
    rcases hratio with h | h
    · exact h1 h
    · exact h2 h
  simp only [if_neg hr]

/-- C9: for a window with no monitor attached and no aspect ratio set, whose stored
limits have minimum at most maximum wherever both are set: after
`_glfwSetWindowSizeLimitsOS4` the cached width is at least the minimum width when that
is set and at most the maximum width when that is set, and likewise the cached height;
`applySizeLimits` returns a size within the limits as it is and is idempotent; and when
the cached size is within the limits the call leaves the whole state as it is. -/
theorem size_limits_honoured (nat : Native) (g : GLFWlibrary) (window : Ptr)
    (minwidth minheight maxwidth maxheight : Int)
    (hmon : (g.windows window).monitor = NULL)
    (hratio : (g.windows window).numer = GLFW_DONT_CARE ∨
      (g.windows window).denom = GLFW_DONT_CARE)
    (hwidth : (g.windows window).minwidth ≠ GLFW_DONT_CARE →
      (g.windows window).maxwidth ≠ GLFW_DONT_CARE →
      (g.windows window).minwidth ≤ (g.windows window).maxwidth)
    (hheight : (g.windows window).minheight ≠ GLFW_DONT_CARE →
      (g.windows window).maxheight ≠ GLFW_DONT_CARE →
      (g.windows window).minheight ≤ (g.windows window).maxheight) :
    ((g.windows window).minwidth ≠ GLFW_DONT_CARE →
      (g.windows window).minwidth ≤
        ((_glfwSetWindowSizeLimitsOS4 nat g window minwidth minheight maxwidth
          maxheight).windows window).os4.width) ∧
    ((g.windows window).maxwidth ≠ GLFW_DONT_CARE →
      ((_glfwSetWindowSizeLimitsOS4 nat g window minwidth minheight maxwidth
          maxheight).windows window).os4.width ≤ (g.windows window).maxwidth) ∧
    ((g.windows window).minheight ≠ GLFW_DONT_CARE →
      (g.windows window).minheight ≤
        ((_glfwSetWindowSizeLimitsOS4 nat g window minwidth minheight maxwidth
          maxheight).windows window).os4.height) ∧
    ((g.windows window).maxheight ≠ GLFW_DONT_CARE →
      ((_glfwSetWindowSizeLimitsOS4 nat g window minwidth minheight maxwidth
          maxheight).windows window).os4.height ≤ (g.windows window).maxheight) ∧
    (∀ wd ht : Int,
      ((g.windows window).minwidth ≠ GLFW_DONT_CARE → (g.windows window).minwidth ≤ wd) →
      ((g.windows window).maxwidth ≠ GLFW_DONT_CARE → wd ≤ (g.windows window).maxwidth) →
      ((g.windows window).minheight ≠ GLFW_DONT_CARE → (g.windows window).minheight ≤ ht) →
      ((g.windows window).maxheight ≠ GLFW_DONT_CARE → ht ≤ (g.windows window).maxheight) →
      applySizeLimits nat (g.windows window) wd ht = (wd, ht)) ∧
    (∀ wd ht : Int,
      applySizeLimits nat (g.windows window)
          (applySizeLimits nat (g.windows window) wd ht).1
          (applySizeLimits nat (g.windows window) wd ht).2 =
        applySizeLimits nat (g.windows window) wd ht) ∧
    (((g.windows window).minwidth ≠ GLFW_DONT_CARE →
        (g.windows window).minwidth ≤ (g.windows window).os4.width) →
      ((g.windows window).maxwidth ≠ GLFW_DONT_CARE →
        (g.windows window).os4.width ≤ (g.windows window).maxwidth) →
      ((g.windows window).minheight ≠ GLFW_DONT_CARE →
        (g.windows window).minheight ≤ (g.windows window).os4.height) →
      ((g.windows window).maxheight ≠ GLFW_DONT_CARE →
        (g.windows window).os4.height ≤ (g.windows window).maxheight) →
      _glfwSetWindowSizeLimitsOS4 nat g window minwidth minheight maxwidth maxheight = g) := by
  have hcached := _glfwSetWindowSizeOS4_cached g window
    (applySizeLimits nat (g.windows window) (g.windows window).os4.width
      (g.windows window).os4.height).1
    (applySizeLimits nat (g.windows window) (g.windows window).os4.width
      (g.windows window).os4.height).2 hmon
  have hbw := clamp_bounds (g.windows window).minwidth (g.windows window).maxwidth
    (g.windows window).os4.width hwidth
  have hbh := clamp_bounds (g.windows window).minheight (g.windows window).maxheight
    (g.windows window).os4.height hheight
  have hwithin : ∀ wd ht : Int,
      ((g.windows window).minwidth ≠ GLFW_DONT_CARE → (g.windows window).minwidth ≤ wd) →
      ((g.windows window).maxwidth ≠ GLFW_DONT_CARE → wd ≤ (g.windows window).maxwidth) →
      ((g.windows window).minheight ≠ GLFW_DONT_CARE → (g.windows window).minheight ≤ ht) →
      ((g.windows window).maxheight ≠ GLFW_DONT_CARE → ht ≤ (g.windows window).maxheight) →
      applySizeLimits nat (g.windows window) wd ht = (wd, ht) := by
    intro wd ht h1 h2 h3 h4
    rw [applySizeLimits_no_ratio nat _ wd ht hratio, clamp_within _ _ wd h1 h2,
      clamp_within _ _ ht h3 h4]
  unfold _glfwSetWindowSizeLimitsOS4
  simp only
  rw [hcached.1, hcached.2]
  refine ⟨?_, ?_, ?_, ?_, hwithin, ?_, ?_⟩
  · rw [applySizeLimits_no_ratio nat _ _ _ hratio]
    exact hbw.1
  · rw [applySizeLimits_no_ratio nat _ _ _ hratio]
    exact hbw.2
  · rw [applySizeLimits_no_ratio nat _ _ _ hratio]
    exact hbh.1
  · rw [applySizeLimits_no_ratio nat _ _ _ hratio]
    exact hbh.2
  · intro wd ht
    have bw := clamp_bounds (g.windows window).minwidth (g.windows window).maxwidth wd hwidth
    have bh := clamp_bounds (g.windows window).minheight (g.windows window).maxheight ht
      hheight
    apply hwithin
    · rw [applySizeLimits_no_ratio nat _ _ _ hratio]
      exact bw.1
    · rw [applySizeLimits_no_ratio nat _ _ _ hratio]
      exact bw.2
    · rw [applySizeLimits_no_ratio nat _ _ _ hratio]
      exact bh.1
    · rw [applySizeLimits_no_ratio nat _ _ _ hratio]
      exact bh.2
  · intro h1 h2 h3 h4
    rw [hwithin _ _ h1 h2 h3 h4]
    exact _glfwSetWindowSizeOS4_same g window _ _ rfl rfl

/-- The window of the limited sample library, 640 wide with widths limited to 700 to
900, is widened to 700. -/
theorem size_limits_honoured_witness :
    (GLFWlibrary.limited.windows 1).minwidth ≠ GLFW_DONT_CARE ∧
    (GLFWlibrary.limited.windows 1).os4.width = 640 ∧
    (GLFWlibrary.limited.windows 1).minwidth ≤
      ((_glfwSetWindowSizeLimitsOS4 Native.sample GLFWlibrary.limited 1 700 (-1) 900
        (-1)).windows 1).os4.width :=
  ⟨by decide, by decide,
    (size_limits_honoured Native.sample GLFWlibrary.limited 1 700 (-1) 900 (-1) (by decide)
      (by decide) (by decide) (by decide)).1 (by decide)⟩

/-! ## Reads after the reply -/

/-- C10: two raw-key messages with the same content when taken from the port, for the
same library and the same local record, give the same copy and the same window; the
one whose storage holds the code `0xA0` by the time the dispatch runs is delivered as a
key release and without a character, the intact one as a key press with a character.
Likewise a window-change message whose native window has moved after the reply caches
the later position. -/
theorem dispatch_reads_replied_message :
    OS4_CopyIdcmpMessage (NativeMemory.sample 17 17) (IntuiMessage.sample IDCMP_RAWKEY 0x20 100)
        MyIntuiMessage.sample =
      (_glfwPollEventsOS4.iteration Native.sample GLFWlibrary.sample MyIntuiMessage.sample
        (Delivery.reused (IntuiMessage.sample IDCMP_RAWKEY 0x20 100) (NativeMemory.sample 17 17)
          0xA0 17 17)).2 ∧
    (_glfwPollEventsOS4.iteration Native.sample GLFWlibrary.sample MyIntuiMessage.sample
      (Delivery.intact (IntuiMessage.sample IDCMP_RAWKEY 0x20 100)
        (NativeMemory.sample 17 17))).2 =
      (_glfwPollEventsOS4.iteration Native.sample GLFWlibrary.sample MyIntuiMessage.sample
        (Delivery.reused (IntuiMessage.sample IDCMP_RAWKEY 0x20 100) (NativeMemory.sample 17 17)
          0xA0 17 17)).2 ∧
    (_glfwPollEventsOS4 Native.sample GLFWlibrary.sample MyIntuiMessage.sample
      [Delivery.intact (IntuiMessage.sample IDCMP_RAWKEY 0x20 100)
        (NativeMemory.sample 17 17)]).log =
      [Effect.inputKey 1 0x20 0x20 GLFW_PRESS 0, Effect.inputChar 1 0x20 0 true] ∧
    (_glfwPollEventsOS4 Native.sample GLFWlibrary.sample MyIntuiMessage.sample
      [Delivery.reused (IntuiMessage.sample IDCMP_RAWKEY 0x20 100) (NativeMemory.sample 17 17)
        0xA0 17 17]).log =
      [Effect.inputKey 1 0x20 0x20 GLFW_RELEASE 0] ∧
    _glfwGetWindowPosOS4
      (_glfwPollEventsOS4 Native.sample GLFWlibrary.sample MyIntuiMessage.sample
        [Delivery.reused (IntuiMessage.sample IDCMP_CHANGEWINDOW 0 100)
          (NativeMemory.sample 17 17) 0 300 200]) 1 = (300, 200) := by
  decide

/-! ## Window move notification: proofs -/

theorem OS4_CopyIdcmpMessage_IDCMPWindow (memory : NativeMemory) (src : IntuiMessage)
    (dst : MyIntuiMessage) :
    (OS4_CopyIdcmpMessage memory src dst).IDCMPWindow = src.IDCMPWindow := by
  unfold OS4_CopyIdcmpMessage
  split <;> rfl

theorem dispatch_changewindow (nat : Native) (g : GLFWlibrary) (msg : MyIntuiMessage)
    (window : Ptr) (imsg : IntuiMessage) (memory : NativeMemory)
    (hclass : msg.Class = IDCMP_CHANGEWINDOW) :
    _glfwPollEventsOS4.dispatch nat g msg window imsg memory =
      if window ≠ NULL then
        (g.setOS4 window
          { (g.windows window).os4 with xpos := (memory.window imsg.IDCMPWindow).LeftEdge }).setOS4
          window
          { ((g.setOS4 window
              { (g.windows window).os4 with
                xpos := (memory.window imsg.IDCMPWindow).LeftEdge }).windows window).os4 with
            ypos := (memory.window imsg.IDCMPWindow).TopEdge }
      else g := by
  have h1 : IDCMP_CHANGEWINDOW ≠ IDCMP_MOUSEMOVE := by decide
  have h2 : IDCMP_CHANGEWINDOW ≠ IDCMP_RAWKEY := by decide
  have h3 : IDCMP_CHANGEWINDOW ≠ IDCMP_MOUSEBUTTONS := by decide
  have h4 : IDCMP_CHANGEWINDOW ≠ IDCMP_EXTENDEDMOUSE := by decide
  have h5 : IDCMP_CHANGEWINDOW ≠ IDCMP_NEWSIZE := by decide
  unfold _glfwPollEventsOS4.dispatch
  rw [hclass, if_neg h1, if_neg h2, if_neg h3, if_neg h4, if_neg h5, if_pos rfl]

/-- One turn of the pump on a window-change message: if its native window is the handle
of `w`, the first window on the chain with that handle, then afterwards the position
getter of `w` returns the left and top edge of the native window that the message
storage names after the reply, the object of `w` differs from the one before in the
cached `xpos` and `ypos` only, and every other window, the monitors, the focused window
and the log are as before; if no window on the chain has the handle, the whole state is
as before. -/
theorem changewindow_updates_position (nat : Native) (g : GLFWlibrary) (msg : MyIntuiMessage)
    (d : Delivery) (hwf : NULL ∉ g.windowList) (hclass : d.imsg.Class = IDCMP_CHANGEWINDOW) :
    (∀ (w : Ptr) (before after : List Ptr), g.windowList = before ++ w :: after →
      (g.windows w).os4.handle = d.imsg.IDCMPWindow →
      (∀ v ∈ before, (g.windows v).os4.handle ≠ d.imsg.IDCMPWindow) →
      _glfwGetWindowPosOS4 (_glfwPollEventsOS4.iteration nat g msg d).1 w =
        ((d.memoryReplied.window d.imsgReplied.IDCMPWindow).LeftEdge,
          (d.memoryReplied.window d.imsgReplied.IDCMPWindow).TopEdge) ∧
      (_glfwPollEventsOS4.iteration nat g msg d).1.windows w =
        { g.windows w with
          os4 :=
            { (g.windows w).os4 with
              xpos := (d.memoryReplied.window d.imsgReplied.IDCMPWindow).LeftEdge
              ypos := (d.memoryReplied.window d.imsgReplied.IDCMPWindow).TopEdge } } ∧
      (∀ p : Ptr, p ≠ w →
        (_glfwPollEventsOS4.iteration nat g msg d).1.windows p = g.windows p) ∧
      (_glfwPollEventsOS4.iteration nat g msg d).1.monitors = g.monitors ∧
      (_glfwPollEventsOS4.iteration nat g msg d).1.focusedWindow = g.focusedWindow ∧
      (_glfwPollEventsOS4.iteration nat g msg d).1.log = g.log) ∧
    ((∀ v ∈ g.windowList, (g.windows v).os4.handle ≠ d.imsg.IDCMPWindow) →
      (_glfwPollEventsOS4.iteration nat g msg d).1 = g) := by
  have hstep : (_glfwPollEventsOS4.iteration nat g msg d).1 =
      _glfwPollEventsOS4.dispatch nat g (OS4_CopyIdcmpMessage d.memory d.imsg msg)
        (OS4_FindWindow g d.imsg.IDCMPWindow) d.imsgReplied d.memoryReplied := rfl
  rw [hstep, dispatch_changewindow nat g _ _ _ _
    ((OS4_CopyIdcmpMessage_Class d.memory d.imsg msg).trans hclass)]
  constructor
  · intro w before after hl hh hb
    have hfind : OS4_FindWindow g d.imsg.IDCMPWindow = w := by
      unfold OS4_FindWindow
      rw [hl]
      exact OS4_FindWindow.loop_first g.windows _ w after hh before hb
    have hw : w ≠ NULL := by
      intro e
      apply hwf
      rw [hl, ← e]
      simp
    rw [hfind, if_pos hw]
    refine ⟨?_, ?_, ?_, ?_, ?_, ?_⟩
    · simp [_glfwGetWindowPosOS4, GLFWlibrary.setOS4, GLFWlibrary.setWindow]
    · simp [GLFWlibrary.setOS4, GLFWlibrary.setWindow]
    · intro p hp
      simp [GLFWlibrary.setOS4, GLFWlibrary.setWindow, Function.update_noteq hp]
    · rfl
    · rfl
    · rfl
  · intro hnone
    have hfind : OS4_FindWindow g d.imsg.IDCMPWindow = NULL :=
      (OS4_FindWindow.loop_eq_null_iff g.windows _ g.windowList hwf).mpr hnone
    rw [hfind]
    simp

/-- C11: on the sample library, where the native handle `100` belongs to the window at
address `1`, a window-change message for the native window `100`, which sits at
`(300, 200)`, whose storage names the native window `200`, at `(999, 888)`, by the time
the dispatch runs: afterwards the position getter of the window at address `1` returns
`(999, 888)`; an intact message gives `(300, 200)`. -/
theorem changewindow_reads_replied_window :
    OS4_FindWindow GLFWlibrary.sample 100 = 1 ∧
    ((NativeMemory.two 300 200).window 100).LeftEdge = 300 ∧
    ((NativeMemory.two 300 200).window 100).TopEdge = 200 ∧
    _glfwGetWindowPosOS4
      (_glfwPollEventsOS4 Native.sample GLFWlibrary.sample MyIntuiMessage.sample
        [Delivery.redirected (IntuiMessage.sample IDCMP_CHANGEWINDOW 0 100)
          (NativeMemory.two 300 200) 200]) 1 = (999, 888) ∧
    _glfwGetWindowPosOS4
      (_glfwPollEventsOS4 Native.sample GLFWlibrary.sample MyIntuiMessage.sample
        [Delivery.intact (IntuiMessage.sample IDCMP_CHANGEWINDOW 0 100)
          (NativeMemory.two 300 200)]) 1 = (300, 200) := by
  decide

/-! ## Opacity: proofs -/

/-- C12: on the first window of the sample library (native handle `100`), setting the
opacity `1/2` caches `1/2` and passes `0` to the native opaqueness attribute, where the
integer part of `1/2 * 255` is `127`; the opacities `0` and `1` pass `0` and `255`. -/
theorem setWindowOpacity_half :
    _glfwGetWindowOpacityOS4 (_glfwSetWindowOpacityOS4 GLFWlibrary.sample 1 (1 / 2)) 1 = 1 / 2 ∧
    (_glfwSetWindowOpacityOS4 GLFWlibrary.sample 1 (1 / 2)).log =
      [Effect.setWindowOpaqueness 100 0] ∧
    castToInt ((1 / 2 : Rat) * 255) = 127 ∧
    (_glfwSetWindowOpacityOS4 GLFWlibrary.sample 1 0).log =
      [Effect.setWindowOpaqueness 100 0] ∧
    (_glfwSetWindowOpacityOS4 GLFWlibrary.sample 1 1).log =
      [Effect.setWindowOpaqueness 100 255] := by
  have h0 : castToInt (1 / 2) = 0 := by
    norm_num [castToInt]
    decide
  have h127 : castToInt ((1 / 2 : Rat) * 255) = 127 := by
    norm_num [castToInt]
    decide
  have h0' : castToInt (2⁻¹ : Rat) = 0 := by
    rw [← one_div]
    exact h0
  refine ⟨?_, ?_, h127, ?_, ?_⟩
  · simp [_glfwGetWindowOpacityOS4, _glfwSetWindowOpacityOS4, GLFWlibrary.setOS4,
      GLFWlibrary.setWindow, GLFWlibrary.emit]
  · simp [_glfwSetWindowOpacityOS4, GLFWlibrary.setOS4, GLFWlibrary.setWindow,
      GLFWlibrary.emit, h0', GLFWlibrary.sample, GLFWwindow.sample]
  · simp [_glfwSetWindowOpacityOS4, GLFWlibrary.setOS4, GLFWlibrary.setWindow,
      GLFWlibrary.emit, castToInt, GLFWlibrary.sample, GLFWwindow.sample]
  · simp [_glfwSetWindowOpacityOS4, GLFWlibrary.setOS4, GLFWlibrary.setWindow,
      GLFWlibrary.emit, castToInt, GLFWlibrary.sample, GLFWwindow.sample]

/-! ## Key names: proofs -/

/-- C14: for every integer scancode, `_glfwGetScancodeNameOS4` records the error
`GLFW_INVALID_VALUE` and returns `NULL` when the scancode is below `GLFW_KEY_SPACE` or
above `GLFW_KEY_LAST`, and otherwise leaves the state as it is and returns the entry of
the name table at the key code of the scancode; so it records the error and returns
`NULL` if and only if the scancode is out of that range.  In particular the scancode
`c & 0x7F` of a key event of the pump is rejected whenever it is below 32. -/
theorem getScancodeName_range (g : GLFWlibrary) (scancode : Int) :
    (scancode < GLFW_KEY_SPACE ∨ scancode > GLFW_KEY_LAST →
      _glfwGetScancodeNameOS4 g scancode = (_glfwInputError g GLFW_INVALID_VALUE, NULL)) ∧
    (¬ (scancode < GLFW_KEY_SPACE ∨ scancode > GLFW_KEY_LAST) →
      _glfwGetScancodeNameOS4 g scancode =
        (g, g.keynames (g.keycodes scancode.toNat))) ∧
    (((_glfwGetScancodeNameOS4 g scancode).1.log = g.log ++ [Effect.inputError GLFW_INVALID_VALUE] ∧
        (_glfwGetScancodeNameOS4 g scancode).2 = NULL) ↔
      (scancode < 32 ∨ scancode > GLFW_KEY_LAST)) ∧
    (∀ c : Nat, c &&& 0x7F < 32 →
      (_glfwGetScancodeNameOS4 g ((c &&& 0x7F : Nat) : Int)).1.log =
        g.log ++ [Effect.inputError GLFW_INVALID_VALUE] ∧
      (_glfwGetScancodeNameOS4 g ((c &&& 0x7F : Nat) : Int)).2 = NULL) := by
  have hout : ∀ sc : Int, sc < GLFW_KEY_SPACE ∨ sc > GLFW_KEY_LAST →
      _glfwGetScancodeNameOS4 g sc = (_glfwInputError g GLFW_INVALID_VALUE, NULL) := by
    intro sc h
    unfold _glfwGetScancodeNameOS4
    rw [if_pos h]
  have hin : ¬ (scancode < GLFW_KEY_SPACE ∨ scancode > GLFW_KEY_LAST) →
      _glfwGetScancodeNameOS4 g scancode = (g, g.keynames (g.keycodes scancode.toNat)) := by
    intro h
    unfold _glfwGetScancodeNameOS4
    rw [if_neg h]
  refine ⟨hout scancode, hin, ?_, ?_⟩
  · constructor
    · rintro ⟨hlog, -⟩
      by_contra hno
      have hno' : ¬ (scancode < GLFW_KEY_SPACE ∨ scancode > GLFW_KEY_LAST) := hno
      rw [hin hno'] at hlog
      simp at hlog
    · intro h
      have h' : scancode < GLFW_KEY_SPACE ∨ scancode > GLFW_KEY_LAST := h
      rw [hout scancode h']
      exact ⟨rfl, rfl⟩
  · intro c hc
    have h' : ((c &&& 0x7F : Nat) : Int) < GLFW_KEY_SPACE ∨
        ((c &&& 0x7F : Nat) : Int) > GLFW_KEY_LAST := by
      left
      show ((c &&& 0x7F : Nat) : Int) < 32
      exact_mod_cast hc
    rw [hout _ h']
    exact ⟨rfl, rfl⟩

/-- The scancodes `16` and `65` on the sample library: the first is rejected, the second
is named. -/
theorem getScancodeName_range_witness :
    _glfwGetScancodeNameOS4 GLFWlibrary.sample 16 =
      (_glfwInputError GLFWlibrary.sample GLFW_INVALID_VALUE, NULL) ∧
    _glfwGetScancodeNameOS4 GLFWlibrary.sample 65 = (GLFWlibrary.sample, 1065) :=
  ⟨(getScancodeName_range GLFWlibrary.sample 16).1 (by decide),
    (getScancodeName_range GLFWlibrary.sample 65).2.1 (by decide)⟩

/-! ## Cursor image conversion stays in bounds: proofs -/

theorem OS4_CopyImageData.calls_eq (surface : GLFWimage) (n : Nat) :
    ∀ (rows : Nat) (destination source : Int),
      OS4_CopyImageData.calls surface n rows destination source =
        (List.range rows).map (fun y : Nat =>
          (destination + 4 * surface.width * y, source + 4 * y, n)) := by
  intro rows
  induction rows with
  | zero => intro destination source; rfl
  | succ rows ih =>
    intro destination source
    rw [OS4_CopyImageData.calls, ih, List.range_succ_eq_map, List.map_cons, List.map_map]
    congr 1
    · simp
    · apply List.map_congr_left
      intro y _
      simp only [Function.comp_apply, Nat.succ_eq_add_one]
      push_cast
      refine Prod.ext ?_ (Prod.ext ?_ rfl)
      · show destination + 4 * surface.width + 4 * surface.width * (y : Int) =
          destination + 4 * surface.width * ((y : Int) + 1)
        ring
      · show source + 4 + 4 * (y : Int) = source + 4 * ((y : Int) + 1)
        ring

theorem row_in_bounds (w h y : Nat) (hw : 1 ≤ w) (hy : y < h) :
    4 * y + 4 * w ≤ 4 * w * h ∧ 4 * w * y + 4 * w ≤ 4 * w * h := by
  have h1 : w * (y + 1) ≤ w * h := Nat.mul_le_mul_left w hy
  have h2 : y ≤ w * y := Nat.le_mul_of_pos_left y hw
  have e1 : 4 * w * h = 4 * (w * h) := Nat.mul_assoc 4 w h
  have e2 : 4 * w * y = 4 * (w * y) := Nat.mul_assoc 4 w y
  have e3 : w * (y + 1) = w * y + w := Nat.mul_succ w y
  omega

theorem memcpy_in_bounds (dst src : List Nat) (destination source n : Nat)
    (hd : destination + n ≤ dst.length) (hs : source + n ≤ src.length) :
    ∃ out, memcpy dst (destination : Int) src (source : Int) n = some out ∧
      out.length = dst.length := by
  unfold memcpy
  have hc : (0 : Int) ≤ (destination : Int) ∧ (0 : Int) ≤ (source : Int) ∧
      (destination : Int).toNat + n ≤ dst.length ∧ (source : Int).toNat + n ≤ src.length := by
    refine ⟨Int.natCast_nonneg _, Int.natCast_nonneg _, ?_, ?_⟩
    · rw [Int.toNat_natCast]
      exact hd
    · rw [Int.toNat_natCast]
      exact hs
  rw [if_pos hc]
  refine ⟨_, rfl, ?_⟩
  simp only [Int.toNat_natCast, List.length_append, List.length_take, List.length_drop]
  omega

theorem OS4_CopyImageData.loop_in_bounds (surface : GLFWimage) (w h : Nat) (hw : 1 ≤ w)
    (hwidth : surface.width = w) (hpixels : surface.pixels.length = 4 * w * h) :
    ∀ (rows y : Nat) (buffer : List Nat), y + rows = h → buffer.length = 4 * w * h →
      ∃ out, OS4_CopyImageData.loop surface (4 * w) rows ((4 * w * y : Nat) : Int)
          ((4 * y : Nat) : Int) buffer = some out ∧ out.length = 4 * w * h := by
  intro rows
  induction rows with
  | zero =>
    intro y buffer _ hlen
    exact ⟨buffer, rfl, hlen⟩
  | succ rows ih =>
    intro y buffer hy hlen
    have hb := row_in_bounds w h y hw (by omega)
    obtain ⟨out, hout, holen⟩ := memcpy_in_bounds buffer surface.pixels (4 * w * y) (4 * y)
      (4 * w) (by rw [hlen]; exact hb.2) (by rw [hpixels]; exact hb.1)
    rw [OS4_CopyImageData.loop, hout]
    have e1 : ((4 * w * y : Nat) : Int) + 4 * surface.width = ((4 * w * (y + 1) : Nat) : Int) := by
      rw [hwidth]
      push_cast
      ring
    have e2 : ((4 * y : Nat) : Int) + 4 = ((4 * (y + 1) : Nat) : Int) := by
      push_cast
      ring
    simp only [e1, e2]
    exact ih (y + 1) out (by omega) (holen.trans hlen)

theorem row_of_byte_unique (w h i : Nat) (hw : 1 ≤ w) (hi : i < 4 * w * h) :
    ∃! y, y < h ∧ 4 * w * y ≤ i ∧ i < 4 * w * y + 4 * w := by
  have hpos : 0 < 4 * w := by omega
  refine ⟨i / (4 * w), ⟨?_, ?_, ?_⟩, ?_⟩
  · exact Nat.div_lt_of_lt_mul hi
  · exact Nat.mul_div_le i (4 * w)
  · have := Nat.lt_mul_div_succ i hpos
    rw [Nat.mul_succ] at this
    exact this
  · rintro y ⟨_, h1, h2⟩
    symm
    apply Nat.div_eq_of_lt_le
    · rw [Nat.mul_comm]
      exact h1
    · rw [Nat.succ_mul, Nat.mul_comm]
      exact h2

/-- C15: for an image of width `w ≥ 1` and height `h ≥ 1` whose pixel buffer has exactly
`4 * w * h` bytes, with `4 * w * h` below `2 ^ 32`: the row loop of `OS4_CopyImageData`
makes exactly `h` calls of `memcpy`, the call of row `y` copying `4 * w` bytes from the
source offset `4 * y` to the destination offset `4 * w * y`; for every row `y < h` the
bytes read end inside the pixel buffer and the bytes written end inside the
`4 * w * h` bytes of the destination; every destination byte lies in the range written
by exactly one row; and when `malloc` succeeds no `memcpy` leaves a buffer and the
result is a buffer of `4 * w * h` bytes. -/
theorem OS4_CopyImageData_in_bounds (nat : Native) (surface : GLFWimage) (w h : Nat)
    (hw : 1 ≤ w) (hh : 1 ≤ h) (hwidth : surface.width = w) (hheight : surface.height = h)
    (hpixels : surface.pixels.length = 4 * w * h) (hsize : 4 * w * h < 2 ^ 32) :
    OS4_CopyImageData.calls surface (((surface.width % 2 ^ 32).toNat * 4) % 2 ^ 32)
        surface.height.toNat 0 0 =
      (List.range h).map
        (fun y : Nat => (((4 * w * y : Nat) : Int), ((4 * y : Nat) : Int), 4 * w)) ∧
    (OS4_CopyImageData.calls surface (((surface.width % 2 ^ 32).toNat * 4) % 2 ^ 32)
        surface.height.toNat 0 0).length = h ∧
    (∀ y < h, 4 * y + 4 * w ≤ surface.pixels.length ∧ 4 * w * y + 4 * w ≤ 4 * w * h) ∧
    (∀ i < 4 * w * h, ∃! y, y < h ∧ 4 * w * y ≤ i ∧ i < 4 * w * y + 4 * w) ∧
    (∀ junk : Nat → Nat, nat.malloc (4 * w * h) = some junk →
      ∃ buffer, OS4_CopyImageData nat surface = some (some buffer) ∧
        buffer.length = 4 * w * h) := by
  have hwlt : 4 * w < 2 ^ 32 := by
    have : 4 * w * 1 ≤ 4 * w * h := Nat.mul_le_mul_left (4 * w) hh
    omega
  have hrow : ((surface.width % 2 ^ 32).toNat * 4) % 2 ^ 32 = 4 * w := by
    rw [hwidth]
    have e : ((w : Int) % 2 ^ 32).toNat = w := by
      have : ((w : Int) % 2 ^ 32) = ((w % 2 ^ 32 : Nat) : Int) := by push_cast; rfl
      rw [this, Int.toNat_natCast]
      exact Nat.mod_eq_of_lt (by omega)
    rw [e, Nat.mul_comm]
    exact Nat.mod_eq_of_lt hwlt
  have hrows : surface.height.toNat = h := by
    rw [hheight, Int.toNat_natCast]
  have hcalls : OS4_CopyImageData.calls surface (4 * w) h 0 0 =
      (List.range h).map
        (fun y : Nat => (((4 * w * y : Nat) : Int), ((4 * y : Nat) : Int), 4 * w)) := by
    rw [OS4_CopyImageData.calls_eq]
    apply List.map_congr_left
    intro y _
    rw [hwidth]
    push_cast
    refine Prod.ext ?_ (Prod.ext ?_ rfl)
    · show (0 : Int) + 4 * (w : Int) * (y : Int) = 4 * (w : Int) * (y : Int)
      ring
    · show (0 : Int) + 4 * (y : Int) = 4 * (y : Int)
      ring
  rw [hrow, hrows, hcalls]
  refine ⟨rfl, by simp, ?_, ?_, ?_⟩
  · intro y hy
    rw [hpixels]
    exact row_in_bounds w h y hw hy
  · intro i hi
    exact row_of_byte_unique w h i hw hi
  · intro junk hmalloc
    have hsz : (4 * w * (surface.height % 2 ^ 32).toNat) % 2 ^ 32 = 4 * w * h := by
      rw [hheight]
      have e : ((h : Int) % 2 ^ 32).toNat = h := by
        have : ((h : Int) % 2 ^ 32) = ((h % 2 ^ 32 : Nat) : Int) := by push_cast; rfl
        rw [this, Int.toNat_natCast]
        apply Nat.mod_eq_of_lt
        have : 1 * h ≤ 4 * w * h := Nat.mul_le_mul_right h (by omega)
        omega
      rw [e]
      exact Nat.mod_eq_of_lt hsize
    obtain ⟨out, hout, holen⟩ := OS4_CopyImageData.loop_in_bounds surface w h hw hwidth hpixels
      h 0 ((List.range (4 * w * h)).map junk) (by omega) (by simp)
    refine ⟨out, ?_, holen⟩
    unfold OS4_CopyImageData
    simp only [hrow, hsz, hrows, hmalloc]
    have hz : ((4 * w * 0 : Nat) : Int) = 0 := by simp
    have hz' : ((4 * 0 : Nat) : Int) = 0 := by simp
    rw [hz, hz'] at hout
    rw [hout]
    rfl

/-- The 2 by 2 sample image: two rows, and the copy returns a buffer of 16 bytes. -/
theorem OS4_CopyImageData_in_bounds_witness :
    (OS4_CopyImageData.calls GLFWimage.sample 8 2 0 0).length = 2 ∧
    ∃ buffer, OS4_CopyImageData Native.sample GLFWimage.sample = some (some buffer) ∧
      buffer.length = 4 * 2 * 2 :=
  ⟨by decide,
    (OS4_CopyImageData_in_bounds Native.sample GLFWimage.sample 2 2 (by decide) (by decide) rfl
      rfl (by decide) (by decide)).2.2.2.2 (fun _ => 0) rfl⟩

/-! ## Focus invariant: proofs -/

theorem releaseMonitor_frame (g : GLFWlibrary) (window : Ptr) :
    (releaseMonitor g window).windows = g.windows ∧
    (releaseMonitor g window).focusedWindow = g.focusedWindow := by
  unfold releaseMonitor
  split_ifs <;> exact ⟨rfl, rfl⟩

theorem acquireMonitor_frame (g : GLFWlibrary) (window : Ptr) :
    (acquireMonitor g window).windows = g.windows ∧
    (acquireMonitor g window).focusedWindow = g.focusedWindow :=
  ⟨rfl, rfl⟩

theorem setOS4_visible (g : GLFWlibrary) (window p : Ptr) (o : GLFWwindowOS4) :
    ((g.setOS4 window o).windows p).os4.visible =
      if p = window then o.visible else (g.windows p).os4.visible := by
  unfold GLFWlibrary.setOS4 GLFWlibrary.setWindow
  by_cases hp : p = window
  · subst hp
    simp
  · simp [hp, Function.update_noteq hp]

theorem _glfwShowWindowOS4_frame (g : GLFWlibrary) (window : Ptr) :
    (_glfwShowWindowOS4 g window).focusedWindow = g.focusedWindow ∧
    ∀ p, ((_glfwShowWindowOS4 g window).windows p).os4.visible =
      if p = window then true else (g.windows p).os4.visible := by
  refine ⟨rfl, fun p => ?_⟩
  exact setOS4_visible g window p _

theorem _glfwHideWindowOS4_frame (g : GLFWlibrary) (window : Ptr) :
    (_glfwHideWindowOS4 g window).focusedWindow =
      (if g.focusedWindow = window then NULL else g.focusedWindow) ∧
    ∀ p, ((_glfwHideWindowOS4 g window).windows p).os4.visible =
      if p = window then false else (g.windows p).os4.visible := by
  unfold _glfwHideWindowOS4
  by_cases hf : g.focusedWindow = window
  · simp only [hf, if_true]
    exact ⟨rfl, fun p => setOS4_visible _ window p _⟩
  · simp only [hf, if_false]
    exact ⟨rfl, fun p => setOS4_visible _ window p _⟩

theorem releaseMonitor_windows (g : GLFWlibrary) (window : Ptr) :
    (releaseMonitor g window).windows = g.windows :=
  (releaseMonitor_frame g window).1

theorem releaseMonitor_focusedWindow (g : GLFWlibrary) (window : Ptr) :
    (releaseMonitor g window).focusedWindow = g.focusedWindow :=
  (releaseMonitor_frame g window).2

theorem setOS4_focusedWindow (g : GLFWlibrary) (window : Ptr) (o : GLFWwindowOS4) :
    (g.setOS4 window o).focusedWindow = g.focusedWindow :=
  rfl

theorem emit_windows (g : GLFWlibrary) (e : Effect) : (g.emit e).windows = g.windows :=
  rfl

theorem emit_focusedWindow (g : GLFWlibrary) (e : Effect) :
    (g.emit e).focusedWindow = g.focusedWindow :=
  rfl

theorem _glfwIconifyWindowOS4_frame (g : GLFWlibrary) (window : Ptr) :
    (_glfwIconifyWindowOS4 g window).focusedWindow =
      (if g.focusedWindow = window then NULL else g.focusedWindow) ∧
    ∀ p, ((_glfwIconifyWindowOS4 g window).windows p).os4.visible =
      (g.windows p).os4.visible := by
  unfold _glfwIconifyWindowOS4
  simp only [_glfwInputWindowFocus, _glfwInputWindowIconify]
  split_ifs <;>
    refine ⟨?_, fun p => ?_⟩ <;>
    simp only [releaseMonitor_windows, releaseMonitor_focusedWindow, setOS4_focusedWindow,
      emit_windows, emit_focusedWindow, setOS4_visible] <;>
    first
      | rfl
      | (split_ifs with hp
         · rw [hp]
         · rfl)

theorem acquireMonitor_windows (g : GLFWlibrary) (window : Ptr) :
    (acquireMonitor g window).windows = g.windows :=
  rfl

theorem acquireMonitor_focusedWindow (g : GLFWlibrary) (window : Ptr) :
    (acquireMonitor g window).focusedWindow = g.focusedWindow :=
  rfl

theorem _glfwRestoreWindowOS4_frame (g : GLFWlibrary) (window : Ptr) :
    (_glfwRestoreWindowOS4 g window).focusedWindow = g.focusedWindow ∧
    ∀ p, ((_glfwRestoreWindowOS4 g window).windows p).os4.visible =
      (g.windows p).os4.visible := by
  unfold _glfwRestoreWindowOS4
  simp only [_glfwInputWindowMaximize, _glfwInputWindowIconify]
  split_ifs <;>
    refine ⟨?_, fun p => ?_⟩ <;>
    simp only [acquireMonitor_windows, acquireMonitor_focusedWindow, setOS4_focusedWindow,
      emit_windows, emit_focusedWindow, setOS4_visible] <;>
    first
      | rfl
      | (split_ifs with hp
         · rw [hp]
         · rfl)

theorem _glfwMaximizeWindowOS4_frame (g : GLFWlibrary) (window : Ptr) :
    (_glfwMaximizeWindowOS4 g window).focusedWindow = g.focusedWindow ∧
    ∀ p, ((_glfwMaximizeWindowOS4 g window).windows p).os4.visible =
      (g.windows p).os4.visible := by
  unfold _glfwMaximizeWindowOS4
  simp only [_glfwInputWindowMaximize]
  by_cases hm : (g.windows window).os4.maximized = true
  · rw [if_neg (not_not.mpr hm)]
    exact ⟨rfl, fun _ => rfl⟩
  · rw [if_pos hm]
    refine ⟨rfl, fun p => ?_⟩
    simp only [emit_windows, setOS4_visible]
    split_ifs with hp
    · rw [hp]
    · rfl

theorem _glfwDestroyWindowOS4_frame (g : GLFWlibrary) (window : Ptr) :
    (_glfwDestroyWindowOS4 g window).focusedWindow =
      (if g.focusedWindow = window then NULL else g.focusedWindow) ∧
    (_glfwDestroyWindowOS4 g window).windows = g.windows := by
  unfold _glfwDestroyWindowOS4
  by_cases hc : (g.windows window).contextDestroy = true <;>
    by_cases hm : (g.windows window).monitor ≠ NULL <;>
    by_cases hf : g.focusedWindow = window <;>
    simp [hc, hm, hf, emit_windows, emit_focusedWindow, releaseMonitor_windows,
      releaseMonitor_focusedWindow]

theorem _glfwFocusWindowOS4_noop (g : GLFWlibrary) (window : Ptr)
    (h : g.focusedWindow = window ∨ (g.windows window).os4.visible = false) :
    _glfwFocusWindowOS4 g window = g := by
  unfold _glfwFocusWindowOS4
  by_cases h1 : g.focusedWindow = window
  · rw [if_pos h1]
  · rcases h with h | h
    · exact absurd h h1
    · rw [if_neg h1, if_pos (by simp [h])]

theorem _glfwFocusWindowOS4_frame (g : GLFWlibrary) (window : Ptr)
    (hne : g.focusedWindow ≠ window) (hvis : (g.windows window).os4.visible = true) :
    (_glfwFocusWindowOS4 g window).focusedWindow = window ∧
    ∀ p, ((_glfwFocusWindowOS4 g window).windows p).os4.visible =
      (g.windows p).os4.visible := by
  unfold _glfwFocusWindowOS4
  rw [if_neg hne, if_neg (by simp [hvis])]
  simp only [_glfwInputWindowFocus]
  have hic := _glfwIconifyWindowOS4_frame
    ({ g with focusedWindow := window }.emit (.inputWindowFocus g.focusedWindow false))
    g.focusedWindow
  have hne' : ¬ window = g.focusedWindow := fun e => hne e.symm
  simp only [emit_focusedWindow, emit_windows, if_neg hne'] at hic
  split_ifs
  · exact ⟨hic.1, hic.2⟩
  · exact ⟨rfl, fun _ => rfl⟩
  · exact ⟨rfl, fun _ => rfl⟩

theorem destroyedBy_cons (call : WindowCall) (calls : List WindowCall) :
    destroyedBy (call :: calls) = destroyedBy [call] ++ destroyedBy calls := by
  cases call <;> rfl

theorem focusInvariant_mono (g : GLFWlibrary) (destroyed destroyed' : List Ptr)
    (hsub : ∀ p, p ∈ destroyed' → p ∈ destroyed) (hinv : focusInvariant g destroyed) :
    focusInvariant g destroyed' := by
  intro hf
  exact ⟨(hinv hf).1, fun hmem => (hinv hf).2 (hsub _ hmem)⟩

theorem focusInvariant_keep (g g' : GLFWlibrary) (destroyed : List Ptr)
    (hfocus : g'.focusedWindow = g.focusedWindow)
    (hvisible : ∀ p, (g.windows p).os4.visible = true → (g'.windows p).os4.visible = true)
    (hinv : focusInvariant g destroyed) : focusInvariant g' destroyed := by
  intro hf
  rw [hfocus] at hf ⊢
  exact ⟨hvisible _ (hinv hf).1, (hinv hf).2⟩

theorem focusInvariant_step (g : GLFWlibrary) (destroyed : List Ptr) (call : WindowCall)
    (hinv : focusInvariant g destroyed) (hlive : call.window ∉ destroyed) :
    focusInvariant (call.run g) (destroyedBy [call] ++ destroyed) := by
  cases call with
  | showWindow window =>
    apply focusInvariant_keep g _ _ (_glfwShowWindowOS4_frame g window).1 _ hinv
    intro p hp
    rw [(_glfwShowWindowOS4_frame g window).2 p]
    split_ifs
    · rfl
    · exact hp
  | hideWindow window =>
    intro hf
    have hfr := _glfwHideWindowOS4_frame g window
    show ((_glfwHideWindowOS4 g window).windows (_glfwHideWindowOS4 g window).focusedWindow
      ).os4.visible = true ∧ (_glfwHideWindowOS4 g window).focusedWindow ∉ destroyed
    have hf' : (_glfwHideWindowOS4 g window).focusedWindow ≠ NULL := hf
    rw [hfr.1] at hf' ⊢
    by_cases hw : g.focusedWindow = window
    · rw [if_pos hw] at hf'
      exact absurd rfl hf'
    · rw [if_neg hw] at hf' ⊢
      rw [hfr.2, if_neg hw]
      exact hinv hf'
  | focusWindow window =>
    show focusInvariant (_glfwFocusWindowOS4 g window) destroyed
    by_cases h : g.focusedWindow = window ∨ (g.windows window).os4.visible = false
    · rw [_glfwFocusWindowOS4_noop g window h]
      exact hinv
    · have hne : g.focusedWindow ≠ window := fun e => h (Or.inl e)
      have hvis : (g.windows window).os4.visible = true := by
        cases hv : (g.windows window).os4.visible
        · exact absurd (Or.inr hv) h
        · rfl
      have hfr := _glfwFocusWindowOS4_frame g window hne hvis
      intro _
      rw [hfr.1, hfr.2, hvis]
      exact ⟨rfl, hlive⟩
  | iconifyWindow window =>
    intro hf
    have hfr := _glfwIconifyWindowOS4_frame g window
    show ((_glfwIconifyWindowOS4 g window).windows
      (_glfwIconifyWindowOS4 g window).focusedWindow).os4.visible = true ∧
      (_glfwIconifyWindowOS4 g window).focusedWindow ∉ destroyed
    have hf' : (_glfwIconifyWindowOS4 g window).focusedWindow ≠ NULL := hf
    rw [hfr.1] at hf' ⊢
    by_cases hw : g.focusedWindow = window
    · rw [if_pos hw] at hf'
      exact absurd rfl hf'
    · rw [if_neg hw] at hf' ⊢
      rw [hfr.2]
      exact hinv hf'
  | restoreWindow window =>
    apply focusInvariant_keep g _ _ (_glfwRestoreWindowOS4_frame g window).1 _ hinv
    intro p hp
    rw [(_glfwRestoreWindowOS4_frame g window).2 p]
    exact hp
  | maximizeWindow window =>
    apply focusInvariant_keep g _ _ (_glfwMaximizeWindowOS4_frame g window).1 _ hinv
    intro p hp
    rw [(_glfwMaximizeWindowOS4_frame g window).2 p]
    exact hp
  | destroyWindow window =>
    intro hf
    have hfr := _glfwDestroyWindowOS4_frame g window
    show ((_glfwDestroyWindowOS4 g window).windows
      (_glfwDestroyWindowOS4 g window).focusedWindow).os4.visible = true ∧
      (_glfwDestroyWindowOS4 g window).focusedWindow ∉ window :: destroyed
    have hf' : (_glfwDestroyWindowOS4 g window).focusedWindow ≠ NULL := hf
    rw [hfr.1] at hf' ⊢
    by_cases hw : g.focusedWindow = window
    · rw [if_pos hw] at hf'
      exact absurd rfl hf'
    · rw [if_neg hw] at hf' ⊢
      rw [hfr.2]
      refine ⟨(hinv hf').1, ?_⟩
      intro hmem
      rcases List.mem_cons.mp hmem with e | e
      · exact hw e
      · exact (hinv hf').2 e

theorem focusInvariant_runCalls :
    ∀ (calls : List WindowCall) (g : GLFWlibrary) (destroyed : List Ptr),
      focusInvariant g destroyed → callsOnLiveWindows destroyed calls = true →
      focusInvariant (runCalls g calls) (destroyedBy calls ++ destroyed) := by
  intro calls
  induction calls with
  | nil =>
    intro g destroyed hinv _
    exact hinv
  | cons call calls ih =>
    intro g destroyed hinv hlive
    unfold callsOnLiveWindows at hlive
    rw [Bool.and_eq_true] at hlive
    have hnot : call.window ∉ destroyed := by
      intro hmem
      have hc : destroyed.contains call.window = true := by simpa using hmem
      rw [hc] at hlive
      exact absurd hlive.1 (by decide)
    have hstep := focusInvariant_step g destroyed call hinv hnot
    have hrest := ih (call.run g) (destroyedBy [call] ++ destroyed) hstep hlive.2
    apply focusInvariant_mono _ _ _ _ hrest
    intro p hp
    rw [destroyedBy_cons] at hp
    simp only [List.mem_append] at hp ⊢
    tauto

/-- C13: starting from a state with no focused window, after any sequence of show,
hide, focus, iconify, restore, maximize and destroy calls in which no call is made on a
window destroyed earlier in the sequence, a focused window is marked visible and has
not been destroyed; a focus call on a hidden window leaves the whole state, log
included, as it is; and a hide or destroy call on the focused window leaves no window
focused. -/
theorem focus_invariant (g : GLFWlibrary) (calls : List WindowCall)
    (hstart : g.focusedWindow = NULL) (hlive : callsOnLiveWindows [] calls = true) :
    ((runCalls g calls).focusedWindow ≠ NULL →
      ((runCalls g calls).windows (runCalls g calls).focusedWindow).os4.visible = true ∧
      (runCalls g calls).focusedWindow ∉ destroyedBy calls) ∧
    (∀ (s : GLFWlibrary) (window : Ptr), (s.windows window).os4.visible = false →
      _glfwFocusWindowOS4 s window = s) ∧
    (∀ (s : GLFWlibrary) (window : Ptr), s.focusedWindow = window →
      (_glfwHideWindowOS4 s window).focusedWindow = NULL) ∧
    (∀ (s : GLFWlibrary) (window : Ptr), s.focusedWindow = window →
      (_glfwDestroyWindowOS4 s window).focusedWindow = NULL) := by
  refine ⟨?_, ?_, ?_, ?_⟩
  · have hinv : focusInvariant g [] := fun hf => absurd hstart hf
    have h := focusInvariant_runCalls calls g [] hinv hlive
    rw [List.append_nil] at h
    exact h
  · intro s window hv
    exact _glfwFocusWindowOS4_noop s window (Or.inr hv)
  · intro s window hf
    rw [(_glfwHideWindowOS4_frame s window).1, if_pos hf]
  · intro s window hf
    rw [(_glfwDestroyWindowOS4_frame s window).1, if_pos hf]

/-- The sample sequence of calls on the sample library without focus: in the end the
second window is focused, it is visible, and it is not the destroyed window. -/
theorem focus_invariant_witness :
    GLFWlibrary.unfocused.focusedWindow = NULL ∧
    callsOnLiveWindows [] WindowCall.sample = true ∧
    (runCalls GLFWlibrary.unfocused WindowCall.sample).focusedWindow = 2 ∧
    ((runCalls GLFWlibrary.unfocused WindowCall.sample).windows
      (runCalls GLFWlibrary.unfocused WindowCall.sample).focusedWindow).os4.visible = true ∧
    (runCalls GLFWlibrary.unfocused WindowCall.sample).focusedWindow ∉
      destroyedBy WindowCall.sample :=
  ⟨rfl, by decide, by decide,
    (focus_invariant GLFWlibrary.unfocused WindowCall.sample rfl (by decide)).1 (by decide)⟩

end OS4
